import Mathlib

/-!
# libktest: hook slot, assertion evaluator and result aggregator

A shallow embedding of `libktest/src/ktest.c`, `ktest.h` and `test.c`.

Modelling conventions.

* The two process-wide objects `test` and `kthook` are the two fields of
  `Globals`; every library function takes the globals and hands them back.
* `const char *` is `Option String`: `none` is `NULL`, `some s` points at the
  NUL-terminated text `s`. Only the text is represented, never the address.
* `uint64_t` is a `Nat`, the conversion to it is `castU64` (reduction modulo
  `2 ^ 64`). `int` is an `Int` in `[INT_MIN, INT_MAX]`; every `++` on an `int`
  goes through `wrapInt` (two's complement wrap-around, which is what the
  generated code does; the C standard leaves signed overflow undefined).
* A computation ends in an `Outcome`: it returns, it fails `assert`, it calls
  `abort()`, or it has no defined behaviour (a null pointer handed to
  `strcmp`).
* Operand expressions handed to the assertion forms are code under test: they
  read the globals (through injection points), own a state `σ` of their own
  and may end fatally.
* Console output is not represented.
-/

set_option linter.unusedVariables false

namespace KTest

/-! ## Machine integers -/

/-- The largest `int`. -/
def INT_MAX : Int := 2147483647

/-- The smallest `int`. -/
def INT_MIN : Int := -2147483648

/-- Conversion of an integer value to the 32-bit `int`. -/
def wrapInt (x : Int) : Int := (x + 2147483648) % 4294967296 - 2147483648

/-- Conversion of an integer value to `uint64_t`: the cast `(uint64_t) x`. -/
def castU64 (x : Int) : Nat := (x % 18446744073709551616).toNat

/-- Conversion of a `uint64_t` to `int`: the cast `(int) v`. -/
def castInt (v : Nat) : Int := wrapInt (v : Int)

/-- The value is one an `int` object can hold. -/
def IsInt (x : Int) : Prop := INT_MIN ≤ x ∧ x ≤ INT_MAX

instance (x : Int) : Decidable (IsInt x) := by
  unfold IsInt; infer_instance

/-! ## `enum e_ktstatus` -/

/-- Enumerator `PASS = 1`. -/
def PASS : Int := 1

/-- Enumerator `FAIL = 0`. -/
def FAIL : Int := 0

/-! ## Outcomes -/

/-- How a computation ends. -/
inductive Outcome (α : Type) where
  /-- normal return -/
  | ret (a : α)
  /-- `assert(...)` failed -/
  | assertFail
  /-- `abort()` was called -/
  | abort
  /-- undefined behaviour: `strcmp` on a null pointer -/
  | ub
  deriving DecidableEq, Repr

/-- Sequencing: a fatal end of the first computation is the end of both. -/
def Outcome.bind {α β : Type} (m : Outcome α) (f : α → Outcome β) : Outcome β :=
  match m with
  | .ret a => f a
  | .assertFail => .assertFail
  | .abort => .abort
  | .ub => .ub

/-- The computation returned normally. -/
def Outcome.returns {α : Type} (m : Outcome α) : Bool :=
  match m with
  | .ret _ => true
  | _ => false

/-! ## Data model (`ktest.h`) -/

/-- The hook slot, `kthook_t`; the field `on` is spelled `on_`. -/
structure kthook_t where
  on_ : Bool
  data : Nat
  tag : Option String
  deriving DecidableEq, Repr

/-- The anonymous struct behind the global `test`. -/
structure TestRunState where
  line : Int
  ntest : Int
  npass : Int
  nfails : Int
  status : Int
  file : Option String
  msg : Option String
  stmt : Option String
  deriving DecidableEq, Repr

/-- The process-wide objects `test` and `kthook`. -/
structure Globals where
  test : TestRunState
  kthook : kthook_t
  deriving DecidableEq, Repr

/-- All-zero `kthook`, as at program start and after `memset`. -/
def kthook_zero : kthook_t :=
  { on_ := false, data := 0, tag := none }

/-- All-zero `test`, as at program start. -/
def test_zero : TestRunState :=
  { line := 0, ntest := 0, npass := 0, nfails := 0, status := 0,
    file := none, msg := none, stmt := none }

/-- The globals at program start (static storage is zero-initialised). -/
def Globals.initial : Globals :=
  { test := test_zero, kthook := kthook_zero }

/-! ## `strcmp` -/

/-- Comparison of two texts, character by character; only the sign matters. -/
def strcmpChars : List Char → List Char → Int
  | [], [] => 0
  | [], _ :: _ => -1
  | _ :: _, [] => 1
  | a :: as, b :: bs =>
    if a = b then strcmpChars as bs else if a.toNat < b.toNat then -1 else 1

/-- The library call `strcmp(a, b)`; a null argument is undefined behaviour. -/
def strcmp (a b : Option String) : Outcome Int :=
  match a, b with
  | some s, some t => .ret (strcmpChars s.data t.data)
  | _, _ => .ub

/-! ## `ktest.c` -/

/-- Function `ktest_setup_hook` (ktest.c, lines 20-31). `assert` is active:
the sources do not define `NDEBUG`. -/
def ktest_setup_hook (caller file : Option String) (line : Int) (tag : Option String)
    (g : Globals) : Outcome (Nat × Globals) :=
  if tag = none then .assertFail
  else
    (strcmp g.kthook.tag tag).bind fun c =>
      if c ≠ 0 then .abort
      else .ret (g.kthook.data, g)

/-- Function `ktest_register_hook` (ktest.c, lines 33-46). -/
def ktest_register_hook (file : Option String) (line : Int) (tag : Option String)
    (data : Nat) (g : Globals) : Globals :=
  let g0 : Globals := { g with kthook := kthook_zero }
  if tag ≠ none then
    { g0 with kthook := { g0.kthook with on_ := true, tag := tag, data := data } }
  else g0

/-- Function `ktest_update_result` (ktest.c, lines 48-67): the returned value
and the globals afterwards. -/
def ktest_update_result (file : Option String) (line : Int) (msg stmt : Option String)
    (status : Int) (g : Globals) : Int × Globals :=
  let t : TestRunState :=
    { g.test with file := file, line := line, msg := msg, stmt := stmt, status := status }
  let t1 : TestRunState :=
    if t.status = PASS then { t with npass := wrapInt (t.npass + 1) }
    else { t with nfails := wrapInt (t.nfails + 1) }
  (status, { g with test := t1 })

/-- Function `ktest_report` (ktest.c, lines 78-86): the three numbers it prints
(total, passed, failed) and the globals afterwards. -/
def ktest_report (g : Globals) : List Int × Globals :=
  ([g.test.ntest, g.test.npass, g.test.nfails], g)

/-! ## Code under test, statements and test functions -/

/-- An operand expression of an assertion form: it reads the globals, reads and
writes its own state, and yields a value unless it ends fatally. -/
abbrev Operand (σ α : Type) : Type := Globals → σ → Outcome (α × σ)

/-- A side-effect-free operand with a fixed value. -/
def Operand.lit {σ α : Type} (v : α) : Operand σ α := fun _ u => .ret (v, u)

/-- How a statement of a test function hands control on: to the statement after
it, or out of the enclosing function (`return;`). -/
inductive Ctl where
  | next
  | returned
  deriving DecidableEq, Repr

/-- A statement in the body of a test function. -/
abbrev Stmt (σ : Type) : Type := Globals → σ → Outcome (Ctl × Globals × σ)

/-- A test function, `void f(void)`. -/
abbrev TestFn (σ : Type) : Type := Globals → σ → Outcome (Globals × σ)

/-- The body `s1; s2; ...; return;` of a test function: statements run in order
until one of them returns from the function or ends fatally. -/
def runBody {σ : Type} : List (Stmt σ) → TestFn σ
  | [], g, u => .ret (g, u)
  | s :: rest, g, u =>
    match s g u with
    | .ret (Ctl.next, g1, u1) => runBody rest g1 u1
    | .ret (Ctl.returned, g1, u1) => .ret (g1, u1)
    | .assertFail => .assertFail
    | .abort => .abort
    | .ub => .ub

/-- Function `ktest_worker` (ktest.c, lines 69-76). -/
def ktest_worker {σ : Type} (name : Option String) (test_function : TestFn σ) : TestFn σ :=
  fun g u => test_function g u

/-! ## Injection point (`ktest.h`, lines 124-130) -/

/-- The controlling expression of `KTEST_SETUP_HOOK`:
`(kthook.on == true) && (strcmp(kthook.tag, tagname) == 0)`. -/
def KTEST_SETUP_HOOK_cond (tagname : Option String) (g : Globals) : Outcome Bool :=
  if g.kthook.on_ = true then
    (strcmp g.kthook.tag tagname).bind fun c => .ret (decide (c = 0))
  else .ret false

/-- The block `KTEST_SETUP_HOOK(tagname, type, var)` expanded in function `func`
at `file:line`. The cast `(type)` is the function `type`; the result is the
value of `var` afterwards, and the globals. -/
def KTEST_SETUP_HOOK {T : Type} (func file : String) (line : Int)
    (tagname : Option String) (type : Nat → T) (var : T) (g : Globals) :
    Outcome (T × Globals) :=
  (KTEST_SETUP_HOOK_cond tagname g).bind fun c =>
    if c = true then
      (ktest_setup_hook (some func) (some file) line tagname g).bind fun r =>
        .ret (type r.1, r.2)
    else .ret (var, g)

/-! ## Integer operands -/

/-- The integer types an operand of the equality forms may have (LP64). -/
inductive CIntType where
  | bool
  | char
  | short
  | int
  | uint
  | long
  | ulong
  deriving DecidableEq, Repr

/-- Integer promotion. -/
def CIntType.promoted : CIntType → CIntType
  | .bool => .int
  | .char => .int
  | .short => .int
  | t => t

/-- Conversion of a value to an integer type. -/
def CIntType.conv : CIntType → Int → Int
  | .bool, x => if x = 0 then 0 else 1
  | .char, x => (x + 128) % 256 - 128
  | .short, x => (x + 32768) % 65536 - 32768
  | .int, x => wrapInt x
  | .uint, x => x % 4294967296
  | .long, x => (x + 9223372036854775808) % 18446744073709551616 - 9223372036854775808
  | .ulong, x => x % 18446744073709551616

/-- The comparison `EXPT == ACT` where `EXPT` has type `ty` and `ACT` is an
`int`: both sides are converted to the common type, which is the promoted
type of `EXPT`. -/
def cEq (ty : CIntType) (e act : Int) : Bool :=
  decide (ty.promoted.conv e = ty.promoted.conv act)

/-- The C value of a comparison: 1 when it holds, 0 when it fails. -/
def cBool (b : Bool) : Int := if b = true then 1 else 0

/-! ## The expected operand as it is spelled

`ASSERT_INT` and `EXPECT_TYPE` paste `EXPT` without parentheses in front of
`== ACT` (ktest.h, lines 76 and 112). What is compared with `ACT` is therefore
the whole of `EXPT` only when its spelling binds at least as tightly as `==`;
after a binary operator that binds more loosely, or after the colon of a
conditional, it is the last operand alone. -/

/-- The binary operators that bind more loosely than `==`: `&`, `^`, `|`, `&&`
and `||`, from the tightest to the loosest. -/
inductive LooseOp where
  | bitand
  | bitxor
  | bitor
  | logand
  | logor
  deriving DecidableEq, Repr

/-- Rank of a loose operator: the smaller, the tighter it binds. -/
def LooseOp.level : LooseOp → Nat
  | .bitand => 1
  | .bitxor => 2
  | .bitor => 3
  | .logand => 4
  | .logor => 5

/-- The spelling of an expected operand, as far as `== ACT` pasted behind it can
tell. `tight e`: an expression that binds at least as tightly as `==` (a
constant, a variable, a call, a parenthesised, arithmetic, relational or
equality expression). `binary l op r`: the text `l op r`. `cond c x y`: the text
`c ? x : y`. In the two last the right end `r` or `y` is a spelling again.
Assignment expressions are not represented. -/
inductive Expected (σ : Type) where
  | tight (e : Operand σ Int)
  | binary (l : Operand σ Int) (op : LooseOp) (r : Expected σ)
  | cond (c x : Operand σ Int) (y : Expected σ)

/-- Rank of the operator at the top of a spelling. -/
def Expected.level {σ : Type} : Expected σ → Nat
  | .tight _ => 0
  | .binary _ op _ => op.level
  | .cond _ _ _ => 6

/-- The spelling is one the C grammar reads back as written: the right operand
of a binary operator binds tighter than the operator itself. -/
def Expected.wellSpelled {σ : Type} : Expected σ → Bool
  | .tight _ => true
  | .binary _ op r => decide (r.level < op.level) && r.wellSpelled
  | .cond _ _ y => y.wellSpelled

/-- The value of `a op b` for a bitwise or logical operator (the logical ones
yield 0 or 1). -/
def LooseOp.apply : LooseOp → Int → Int → Int
  | .bitand, a, b => Int.land a b
  | .bitxor, a, b => Int.xor a b
  | .bitor, a, b => Int.lor a b
  | .logand, a, b => cBool (decide (a ≠ 0 ∧ b ≠ 0))
  | .logor, a, b => cBool (decide (a ≠ 0 ∨ b ≠ 0))

/-- The right operand of `&&` is skipped after a zero, that of `||` after a
non-zero left operand. -/
def LooseOp.skipsRight : LooseOp → Int → Bool
  | .logand, a => decide (a = 0)
  | .logor, a => decide (a ≠ 0)
  | _, _ => false

/-- The expression `EXPT` evaluated on its own, as in the argument list of
`printf`. Operands are evaluated left to right. -/
def Expected.value {σ : Type} : Expected σ → Operand σ Int
  | .tight e => e
  | .binary l op r => fun g u =>
    (l g u).bind fun a =>
      if op.skipsRight a.1 = true then .ret (op.apply a.1 0, a.2)
      else (r.value g a.2).bind fun b => .ret (op.apply a.1 b.1, b.2)
  | .cond c x y => fun g u =>
    (c g u).bind fun a =>
      if a.1 ≠ 0 then x g a.2 else y.value g a.2

/-- The expression `EXPT == ACT` as the compiler reads it, `ACT` being an `int`
and `ty` the type of the operand that ends up in front of `==`: the comparison
reaches the last operand of `EXPT` only. -/
def Expected.eqACT {σ : Type} (ty : CIntType) (ACT : Int) : Expected σ → Operand σ Int
  | .tight e => fun g u => (e g u).bind fun r => .ret (cBool (cEq ty r.1 ACT), r.2)
  | .binary l op r => fun g u =>
    (l g u).bind fun a =>
      if op.skipsRight a.1 = true then .ret (op.apply a.1 0, a.2)
      else (r.eqACT ty ACT g a.2).bind fun b => .ret (op.apply a.1 b.1, b.2)
  | .cond c x y => fun g u =>
    (c g u).bind fun a =>
      if a.1 ≠ 0 then x g a.2 else y.eqACT ty ACT g a.2

/-! ## Assertion forms (`ktest.h`, lines 33-121) -/

/-- What the preprocessor fixes at one use of an assertion form: `__FILE__`,
`__LINE__` and the text `#STMT`. -/
structure CallSite where
  file : String
  line : Int
  text : String
  deriving DecidableEq, Repr

/-- The first two steps shared by all forms: `++(test.ntest)` inside the case
announcement, then `ktest_register_hook(__FILE__, __LINE__, HOOK_TAG,
(uint64_t) HOOK_DATA)`. `HOOK_DATA` is the value the cast applies to. -/
def announce_and_arm (cs : CallSite) (HOOK_TAG : Option String) (HOOK_DATA : Int)
    (g : Globals) : Globals :=
  let g1 : Globals := { g with test := { g.test with ntest := wrapInt (g.test.ntest + 1) } }
  ktest_register_hook (some cs.file) cs.line HOOK_TAG (castU64 HOOK_DATA) g1

/-- The call `ktest_update_result(__FILE__, __LINE__, (#STMT), (#STMT), ktretval)`
made by every form; its return value is discarded. -/
def record (cs : CallSite) (ktretval : Int) (g : Globals) : Globals :=
  (ktest_update_result (some cs.file) cs.line (some cs.text) (some cs.text) ktretval g).2

/-- Worker form `ASSERT(STMT, HOOK_TAG, HOOK_DATA)` (lines 54-68). -/
def ASSERT {σ : Type} (cs : CallSite) (STMT : Operand σ Int)
    (HOOK_TAG : Option String) (HOOK_DATA : Int) : Stmt σ := fun g u =>
  let g2 := announce_and_arm cs HOOK_TAG HOOK_DATA g
  (STMT g2 u).bind fun r =>
    let ktretval : Int := if r.1 ≠ 0 then PASS else FAIL
    if ktretval = FAIL then .ret (Ctl.returned, record cs ktretval g2, r.2)
    else .ret (Ctl.next, record cs ktretval g2, r.2)

/-- Worker form `ASSERT_INT(EXPT, STMT, HOOK_TAG, HOOK_DATA)` (lines 70-86).
`EXPT` comes as it is spelled, because line 76 pastes it bare in front of
`== ACT`; `ty` is the type of the operand that meets `==`. On the failing
branch `EXPT` is an argument of the second `printf` and is evaluated once
more. -/
def ASSERT_INT {σ : Type} (cs : CallSite) (ty : CIntType) (EXPT : Expected σ)
    (STMT : Operand σ Int) (HOOK_TAG : Option String) (HOOK_DATA : Int) : Stmt σ := fun g u =>
  let g2 := announce_and_arm cs HOOK_TAG HOOK_DATA g
  (STMT g2 u).bind fun r =>
    let ACT : Int := wrapInt r.1
    (EXPT.eqACT ty ACT g2 r.2).bind fun e =>
      let ktretval : Int := if e.1 ≠ 0 then PASS else FAIL
      if ktretval = FAIL then
        (EXPT.value g2 e.2).bind fun e2 =>
          .ret (Ctl.returned, record cs ktretval g2, e2.2)
      else .ret (Ctl.next, record cs ktretval g2, e.2)

/-- Worker form `ASSERT_STRING(EXPT, STMT, HOOK_TAG, HOOK_DATA)` (lines 88-104).
The two arguments of `strcmp` are evaluated left to right. -/
def ASSERT_STRING {σ : Type} (cs : CallSite) (EXPT STMT : Operand σ (Option String))
    (HOOK_TAG : Option String) (HOOK_DATA : Int) : Stmt σ := fun g u =>
  let g2 := announce_and_arm cs HOOK_TAG HOOK_DATA g
  (EXPT g2 u).bind fun e =>
    (STMT g2 e.2).bind fun r =>
      (strcmp e.1 r.1).bind fun c =>
        let ACT : Int := if c = 0 then 1 else 0
        let ktretval : Int := if ACT ≠ 0 then PASS else FAIL
        if ktretval = FAIL then .ret (Ctl.returned, record cs ktretval g2, r.2)
        else .ret (Ctl.next, record cs ktretval g2, r.2)

/-- Worker form `EXPECT_TYPE(EXPT, STMT, HOOK_TAG, HOOK_DATA)` (lines 106-121).
`EXPT` comes as it is spelled, because line 112 pastes it bare in front of
`== ACT`; `ty` is the type of the operand that meets `==`. There is no `return`
on the failing branch, where `EXPT` is evaluated once more for the second
`printf`. -/
def EXPECT_TYPE {σ : Type} (cs : CallSite) (ty : CIntType) (EXPT : Expected σ)
    (STMT : Operand σ Int) (HOOK_TAG : Option String) (HOOK_DATA : Int) : Stmt σ := fun g u =>
  let g2 := announce_and_arm cs HOOK_TAG HOOK_DATA g
  (STMT g2 u).bind fun r =>
    let ACT : Int := wrapInt r.1
    (EXPT.eqACT ty ACT g2 r.2).bind fun e =>
      let ktretval : Int := if e.1 ≠ 0 then PASS else FAIL
      if ktretval = FAIL then
        (EXPT.value g2 e.2).bind fun e2 =>
          .ret (Ctl.next, record cs ktretval g2, e2.2)
      else .ret (Ctl.next, record cs ktretval g2, e.2)

/-- Test API `TEST_INT_EQUAL` (lines 33-36). -/
def TEST_INT_EQUAL {σ : Type} (cs : CallSite) (ty : CIntType) (EXPT : Expected σ)
    (ACT : Operand σ Int) (HOOK_TAG : Option String) (HOOK_DATA : Int) : Stmt σ :=
  ASSERT_INT cs ty EXPT ACT HOOK_TAG HOOK_DATA

/-- Test API `EXPECT_INT_EQUAL` (lines 38-41). -/
def EXPECT_INT_EQUAL {σ : Type} (cs : CallSite) (ty : CIntType) (EXPT : Expected σ)
    (ACT : Operand σ Int) (HOOK_TAG : Option String) (HOOK_DATA : Int) : Stmt σ :=
  EXPECT_TYPE cs ty EXPT ACT HOOK_TAG HOOK_DATA

/-- Test API `TEST_BOOL_EQUAL` (lines 43-46). -/
def TEST_BOOL_EQUAL {σ : Type} (cs : CallSite) (ty : CIntType) (EXPT : Expected σ)
    (ACT : Operand σ Int) (HOOK_TAG : Option String) (HOOK_DATA : Int) : Stmt σ :=
  ASSERT_INT cs ty EXPT ACT HOOK_TAG HOOK_DATA

/-- Test API `TEST_STRING_EQUAL` (lines 48-51). -/
def TEST_STRING_EQUAL {σ : Type} (cs : CallSite) (EXPT ACT : Operand σ (Option String))
    (HOOK_TAG : Option String) (HOOK_DATA : Int) : Stmt σ :=
  ASSERT_STRING cs EXPT ACT HOOK_TAG HOOK_DATA

/-- One use of an assertion form, with its operands. -/
inductive Assertion (σ : Type) where
  | assert (cs : CallSite) (STMT : Operand σ Int)
      (HOOK_TAG : Option String) (HOOK_DATA : Int)
  | assertInt (cs : CallSite) (ty : CIntType) (EXPT : Expected σ) (STMT : Operand σ Int)
      (HOOK_TAG : Option String) (HOOK_DATA : Int)
  | assertString (cs : CallSite) (EXPT STMT : Operand σ (Option String))
      (HOOK_TAG : Option String) (HOOK_DATA : Int)
  | expectType (cs : CallSite) (ty : CIntType) (EXPT : Expected σ) (STMT : Operand σ Int)
      (HOOK_TAG : Option String) (HOOK_DATA : Int)

/-- The statement an assertion stands for: the expansion of its form. -/
def Assertion.exec {σ : Type} : Assertion σ → Stmt σ
  | .assert cs STMT tag data => ASSERT cs STMT tag data
  | .assertInt cs ty EXPT STMT tag data => ASSERT_INT cs ty EXPT STMT tag data
  | .assertString cs EXPT STMT tag data => ASSERT_STRING cs EXPT STMT tag data
  | .expectType cs ty EXPT STMT tag data => EXPECT_TYPE cs ty EXPT STMT tag data

/-- The forms with `return;` on the failing branch: `ASSERT`, `ASSERT_INT`
(`TEST_INT_EQUAL`, `TEST_BOOL_EQUAL`) and `ASSERT_STRING` (`TEST_STRING_EQUAL`). -/
def Assertion.failFast {σ : Type} : Assertion σ → Bool
  | .expectType .. => false
  | _ => true

/-- Where the assertion stands in the source. -/
def Assertion.site {σ : Type} : Assertion σ → CallSite
  | .assert cs .. => cs
  | .assertInt cs .. => cs
  | .assertString cs .. => cs
  | .expectType cs .. => cs

/-- The hook tag the assertion arms with. -/
def Assertion.hookTag {σ : Type} : Assertion σ → Option String
  | .assert _ _ tag _ => tag
  | .assertInt _ _ _ _ tag _ => tag
  | .assertString _ _ _ tag _ => tag
  | .expectType _ _ _ _ tag _ => tag

/-- The hook data the assertion arms with. -/
def Assertion.hookData {σ : Type} : Assertion σ → Int
  | .assert _ _ _ data => data
  | .assertInt _ _ _ _ _ data => data
  | .assertString _ _ _ _ data => data
  | .expectType _ _ _ _ _ data => data

/-- A sequence of assertion evaluations, one after the other; where control
goes between two of them plays no part. -/
def evalAll {σ : Type} : List (Assertion σ) → TestFn σ
  | [], g, u => .ret (g, u)
  | a :: rest, g, u => (a.exec g u).bind fun r => evalAll rest r.2.1 r.2.2

/-! ## The suite of `test.c` -/

/-- Function `test_int` (test.c, lines 6-14). -/
def test_int : TestFn Unit :=
  runBody [
    TEST_INT_EQUAL ⟨"test.c", 8, "4"⟩ .int (.tight (.lit 4)) (.lit 4) none 0,
    TEST_INT_EQUAL ⟨"test.c", 10, "'a'"⟩ .int (.tight (.lit 97)) (.lit 97) none 0 ]

/-- Function `test_bool` (test.c, lines 16-24); `true` and `false` are the
`int` constants 1 and 0 of `stdbool.h`. -/
def test_bool : TestFn Unit :=
  runBody [
    TEST_BOOL_EQUAL ⟨"test.c", 18, "1"⟩ .int (.tight (.lit 1)) (.lit 1) none 0,
    TEST_BOOL_EQUAL ⟨"test.c", 19, "0"⟩ .int (.tight (.lit 0)) (.lit 0) none 0 ]

/-- The library call `strdup(s)`: a copy of the text (allocation failure is not
represented). -/
def strdup (s : Option String) : Outcome (Option String) :=
  match s with
  | some t => .ret (some t)
  | none => .ub

/-- Function `test_string` (test.c, lines 26-34). -/
def test_string : TestFn Unit :=
  runBody [
    TEST_STRING_EQUAL ⟨"test.c", 28, "\"Hello\""⟩ (.lit (some "Hello")) (.lit (some "Hello"))
      none 0,
    TEST_STRING_EQUAL ⟨"test.c", 30, "strdup(\"Hello\")"⟩ (.lit (some "Hello"))
      (fun _ u => (strdup (some "Hello")).bind fun p => .ret (p, u)) none 0 ]

/-- Function `test_assert` (test.c, lines 36-49). -/
def test_assert : TestFn Unit :=
  runBody [
    ASSERT ⟨"test.c", 38, "2 == 2"⟩ (.lit (cBool (decide ((2 : Int) = 2)))) none 0,
    ASSERT ⟨"test.c", 39, "1 != 2"⟩ (.lit (cBool (decide ((1 : Int) ≠ 2)))) none 0,
    ASSERT ⟨"test.c", 42, "false == false"⟩ (.lit (cBool (decide ((0 : Int) = 0)))) none 0,
    ASSERT ⟨"test.c", 44, "0 == strcmp(\"Hello\", \"Hello\")"⟩
      (fun _ u => (strcmp (some "Hello") (some "Hello")).bind fun c =>
        .ret (cBool (decide (0 = c)), u)) none 0,
    ASSERT ⟨"test.c", 45, "0 != strcmp(\"World\", strdup(\"Work\"))"⟩
      (fun _ u => (strdup (some "Work")).bind fun p =>
        (strcmp (some "World") p).bind fun c => .ret (cBool (decide (0 ≠ c)), u)) none 0 ]

/-- Function `main` (test.c, lines 51-61): the exit status and the globals at
exit. -/
def main (g : Globals) : Outcome (Int × Globals) :=
  (ktest_worker (some "test_int") test_int g ()).bind fun r1 =>
  (ktest_worker (some "test_bool") test_bool r1.1 ()).bind fun r2 =>
  (ktest_worker (some "test_string") test_string r2.1 ()).bind fun r3 =>
  (ktest_worker (some "test_assert") test_assert r3.1 ()).bind fun r4 =>
  .ret (0, (ktest_report r4.1).2)

/-- The eleven assertions `main` evaluates, in order. -/
def suite_assertions : List (Assertion Unit) :=
  [ .assertInt ⟨"test.c", 8, "4"⟩ .int (.tight (.lit 4)) (.lit 4) none 0,
    .assertInt ⟨"test.c", 10, "'a'"⟩ .int (.tight (.lit 97)) (.lit 97) none 0,
    .assertInt ⟨"test.c", 18, "1"⟩ .int (.tight (.lit 1)) (.lit 1) none 0,
    .assertInt ⟨"test.c", 19, "0"⟩ .int (.tight (.lit 0)) (.lit 0) none 0,
    .assertString ⟨"test.c", 28, "\"Hello\""⟩ (.lit (some "Hello")) (.lit (some "Hello"))
      none 0,
    .assertString ⟨"test.c", 30, "strdup(\"Hello\")"⟩ (.lit (some "Hello"))
      (fun _ u => (strdup (some "Hello")).bind fun p => .ret (p, u)) none 0,
    .assert ⟨"test.c", 38, "2 == 2"⟩ (.lit (cBool (decide ((2 : Int) = 2)))) none 0,
    .assert ⟨"test.c", 39, "1 != 2"⟩ (.lit (cBool (decide ((1 : Int) ≠ 2)))) none 0,
    .assert ⟨"test.c", 42, "false == false"⟩ (.lit (cBool (decide ((0 : Int) = 0)))) none 0,
    .assert ⟨"test.c", 44, "0 == strcmp(\"Hello\", \"Hello\")"⟩
      (fun _ u => (strcmp (some "Hello") (some "Hello")).bind fun c =>
        .ret (cBool (decide (0 = c)), u)) none 0,
    .assert ⟨"test.c", 45, "0 != strcmp(\"World\", strdup(\"Work\"))"⟩
      (fun _ u => (strdup (some "Work")).bind fun p =>
        (strcmp (some "World") p).bind fun c => .ret (cBool (decide (0 ≠ c)), u)) none 0 ]

/-! ## Sequences of arming calls -/

/-- A call of `ktest_register_hook`: its four arguments. -/
structure HookCall where
  file : Option String
  line : Int
  tag : Option String
  data : Nat
  deriving DecidableEq, Repr

/-- A sequence of `ktest_register_hook` calls, first to last. -/
def register_all : List HookCall → Globals → Globals
  | [], g => g
  | c :: rest, g => register_all rest (ktest_register_hook c.file c.line c.tag c.data g)

/-- What `ktest_setup_hook` does when the stored tag is not found equal to the
one asked for: undefined behaviour on a null stored tag, `abort()` otherwise. -/
def fatal_end (g : Globals) : Outcome (Nat × Globals) :=
  if g.kthook.tag = none then .ub else .abort

/-! ## Sample operands, assertions and states -/

/-- An operand that yields `v` and counts, in the operand state, how often it
has been evaluated. -/
def Operand.counting {α : Type} (v : α) : Operand Nat α := fun _ n => .ret (v, n + 1)

/-- An operand whose evaluation ends in `abort()`. -/
def Operand.fatal {σ α : Type} : Operand σ α := fun _ _ => .abort

/-- A passing `TEST_INT_EQUAL(4, 4, NULL, NULL)` (test.c, line 8) whose operands
count their evaluations. -/
def sample_pass : Assertion Nat :=
  .assertInt ⟨"test.c", 8, "4"⟩ .int (.tight (.counting 4)) (.counting 4) none 0

/-- The failing `TEST_INT_EQUAL(4, -1, NULL, NULL)` (commented out at test.c,
line 9) whose operands count their evaluations. -/
def sample_fail : Assertion Nat :=
  .assertInt ⟨"test.c", 9, "-1"⟩ .int (.tight (.counting 4)) (.counting (-1)) none 0

/-- A failing `EXPECT_INT_EQUAL(4, -1, NULL, NULL)` whose operands count their
evaluations. -/
def sample_expect_fail : Assertion Nat :=
  .expectType ⟨"test.c", 9, "-1"⟩ .int (.tight (.counting 4)) (.counting (-1)) none 0

/-- An `ASSERT` whose statement would end in `abort()` if it were evaluated. -/
def sample_fatal : Assertion Nat :=
  .assert ⟨"test.c", 10, "boom()"⟩ .fatal none 0

/-- The passing `ASSERT(2 == 2, NULL, NULL)` (test.c, line 38). -/
def always_pass : Assertion Unit :=
  .assert ⟨"test.c", 38, "2 == 2"⟩ (.lit (cBool (decide ((2 : Int) = 2)))) none 0

/-- The globals after `n` evaluations of `always_pass` (`n` at least 1), given
the counters before. -/
def after_passes (g : Globals) (n : Nat) : Globals :=
  { test :=
      { line := 38,
        ntest := wrapInt (g.test.ntest + n),
        npass := wrapInt (g.test.npass + n),
        nfails := g.test.nfails,
        status := PASS,
        file := some "test.c",
        msg := some "2 == 2",
        stmt := some "2 == 2" },
    kthook := kthook_zero }

/-- The globals when `main` of `test.c` reaches its `return 0;`. -/
def suite_final : Globals :=
  { test :=
      { line := 45, ntest := 11, npass := 11, nfails := 0, status := 1,
        file := some "test.c",
        msg := some "0 != strcmp(\"World\", strdup(\"Work\"))",
        stmt := some "0 != strcmp(\"World\", strdup(\"Work\"))" },
    kthook := kthook_zero }

/-- A state one evaluation below `INT_MAX`: 2147483646 assertions have been
evaluated and all of them passed. -/
def near_overflow : Globals :=
  { test := { test_zero with ntest := 2147483646, npass := 2147483646 },
    kthook := kthook_zero }

/-- A state in which `npass` is `INT_MAX`: 2147483647 assertions have been
evaluated and all of them passed. -/
def at_overflow : Globals :=
  { test := { test_zero with ntest := 2147483647, npass := 2147483647 },
    kthook := kthook_zero }

/-! ## Operand types and evaluation counts -/

/-- Width of an integer type in bits. -/
def CIntType.bits : CIntType → Nat
  | .bool => 8
  | .char => 8
  | .short => 16
  | .int => 32
  | .uint => 32
  | .long => 64
  | .ulong => 64

/-- The smallest value of an integer type. -/
def CIntType.minVal : CIntType → Int
  | .bool => 0
  | .char => -128
  | .short => -32768
  | .int => -2147483648
  | .uint => 0
  | .long => -9223372036854775808
  | .ulong => 0

/-- The largest value of an integer type. -/
def CIntType.maxVal : CIntType → Int
  | .bool => 1
  | .char => 127
  | .short => 32767
  | .int => 2147483647
  | .uint => 4294967295
  | .long => 9223372036854775807
  | .ulong => 18446744073709551615

/-- The value is one an object of the type can hold. -/
def CIntType.inRange (ty : CIntType) (x : Int) : Prop := ty.minVal ≤ x ∧ x ≤ ty.maxVal

instance (ty : CIntType) (x : Int) : Decidable (ty.inRange x) := by
  unfold CIntType.inRange; infer_instance

/-- An expected operand that yields `v` and counts its evaluations in the first
component of the operand state. -/
def Operand.countingE {α : Type} (v : α) : Operand (Nat × Nat) α :=
  fun _ u => .ret (v, (u.1 + 1, u.2))

/-- An actual operand (statement) that yields `v` and counts its evaluations in
the second component of the operand state. -/
def Operand.countingS {α : Type} (v : α) : Operand (Nat × Nat) α :=
  fun _ u => .ret (v, (u.1, u.2 + 1))

/-- The operand state a statement leaves behind. -/
def state_after {σ : Type} (s : Stmt σ) (g : Globals) (u : σ) : Outcome σ :=
  (s g u).bind fun r => .ret r.2.2

/-- The status a statement leaves in `test.status`. -/
def status_after {σ : Type} (s : Stmt σ) (g : Globals) (u : σ) : Outcome Int :=
  (s g u).bind fun r => .ret r.2.1.test.status

/-! ## Observing the hook from code under test -/

/-- A statement operand that yields `v` and notes, in the operand state, the
hook slot it finds when it is evaluated. -/
def Operand.watch {α : Type} (v : α) : Operand (Option kthook_t) α :=
  fun g _ => .ret (v, some g.kthook)

/-- Code under test with one injection point: the operand state is the variable
`var`; evaluation runs `KTEST_SETUP_HOOK(t, type, var)` on it and yields
`val var`. -/
def Operand.spy {T α : Type} (func file : String) (line : Int) (t : String)
    (type : Nat → T) (val : T → α) : Operand T α :=
  fun g var =>
    (KTEST_SETUP_HOOK func file line (some t) type var g).bind fun r => .ret (val r.1, r.1)

/-- A number of calls `ktest_setup_hook(caller, file, line, tag)`, one after
the other: the values returned, in order, and the globals afterwards. -/
def consume_times (caller file : Option String) (line : Int) (tag : Option String) :
    Nat → Globals → Outcome (List Nat × Globals)
  | 0, g => .ret ([], g)
  | n + 1, g =>
    (ktest_setup_hook caller file line tag g).bind fun r =>
      (consume_times caller file line tag n r.2).bind fun rest =>
        .ret (r.1 :: rest.1, rest.2)

/-! ## A floating-point target of the cast -/

/-- The cast `(double) v` of a `uint64_t`: the nearest `double` (53-bit
significand, ties to even). The result is a whole number and is given as
such. Up to `2 ^ 53` the cast is exact. -/
def castDouble (v : Nat) : Int :=
  let k := ((List.range 12).find? fun k => decide (v / 2 ^ k < 2 ^ 53)).getD 11
  let q := v / 2 ^ k
  let r := v % 2 ^ k
  let up := decide (2 * r > 2 ^ k) || (decide (2 * r = 2 ^ k) && decide (q % 2 = 1))
  (((if up = true then q + 1 else q) * 2 ^ k : Nat) : Int)

/-! ## Basic facts -/

theorem strcmpChars_eq_zero_iff (a b : List Char) : strcmpChars a b = 0 ↔ a = b := by
  induction a generalizing b with
  | nil => cases b <;> simp [strcmpChars]
  | cons x xs ih =>
    cases b with
    | nil => simp [strcmpChars]
    | cons y ys =>
      by_cases hxy : x = y
      · simp [strcmpChars, hxy, ih]
      · by_cases hlt : x.toNat < y.toNat <;> simp [strcmpChars, hxy, hlt]

theorem strcmp_some_eq_zero_iff (s t : String) :
    strcmp (some s) (some t) = .ret 0 ↔ s = t := by
  simp [strcmp, strcmpChars_eq_zero_iff, String.ext_iff]

theorem strcmp_some_some (s t : String) :
    strcmp (some s) (some t) = .ret (strcmpChars s.data t.data) := rfl

theorem strcmp_self (s : String) : strcmp (some s) (some s) = .ret 0 :=
  (strcmp_some_eq_zero_iff s s).2 rfl

theorem register_hook_some (file : Option String) (line : Int) (t : String) (data : Nat)
    (g : Globals) :
    ktest_register_hook file line (some t) data g
      = { test := g.test, kthook := { on_ := true, data := data, tag := some t } } := by
  simp [ktest_register_hook, kthook_zero]

theorem register_hook_none (file : Option String) (line : Int) (data : Nat) (g : Globals) :
    ktest_register_hook file line none data g = { test := g.test, kthook := kthook_zero } := by
  simp [ktest_register_hook]

/-! ## Hook slot: arming and consuming -/

/-- C2. Hook round-trip: after `ktest_register_hook(_, _, t, v)` with a non-null
tag `t`, whatever the slot held before, `ktest_setup_hook(_, _, _, t2)` with a
tag `t2` that `strcmp` finds equal to `t` returns exactly `v` (and leaves the
globals as the arming left them). -/
theorem hook_round_trip (g : Globals) (file caller file2 : Option String) (line line2 : Int)
    (t t2 : String) (v : Nat) (h : strcmp (some t) (some t2) = .ret 0) :
    ktest_setup_hook caller file2 line2 (some t2) (ktest_register_hook file line (some t) v g)
      = .ret (v, ktest_register_hook file line (some t) v g) := by
  simp [ktest_setup_hook, register_hook_some, h, Outcome.bind]

/-- Witness of C2: tag `"T"`, value 42, from the initial globals. -/
theorem hook_round_trip_witness :
    strcmp (some "T") (some "T") = .ret 0 ∧
    ktest_setup_hook (some "f") (some "x.c") 7 (some "T")
        (ktest_register_hook (some "test.c") 3 (some "T") 42 Globals.initial)
      = .ret (42, ktest_register_hook (some "test.c") 3 (some "T") 42 Globals.initial) :=
  ⟨by decide, hook_round_trip Globals.initial (some "test.c") (some "f") (some "x.c") 3 7
    "T" "T" 42 (by decide)⟩

/-- C3. Hook mismatch fatality: after arming with a non-null tag `a`, consuming
with a non-null tag `b` that `strcmp` does not find equal to `a` ends in
`abort()`; no value is returned. -/
theorem hook_mismatch_aborts (g : Globals) (file caller file2 : Option String)
    (line line2 : Int) (a b : String) (v : Nat) (h : strcmp (some a) (some b) ≠ .ret 0) :
    ktest_setup_hook caller file2 line2 (some b) (ktest_register_hook file line (some a) v g)
      = .abort := by
  have h2 : ¬ strcmpChars a.data b.data = 0 := by
    intro h0
    exact h (by simp [strcmp, h0])
  simp [ktest_setup_hook, register_hook_some, strcmp, Outcome.bind, h2]

/-- Witness of C3: armed with `"A"`, consumed with `"B"`. -/
theorem hook_mismatch_aborts_witness :
    strcmp (some "A") (some "B") ≠ .ret 0 ∧
    ktest_setup_hook (some "f") (some "x.c") 7 (some "B")
        (ktest_register_hook (some "test.c") 3 (some "A") 42 Globals.initial)
      = .abort :=
  ⟨by decide, hook_mismatch_aborts Globals.initial (some "test.c") (some "f") (some "x.c") 3 7
    "A" "B" 42 (by decide)⟩

/-- C4. Arming resets the slot unconditionally: after
`ktest_register_hook(_, _, tag, data)` the slot depends on the arguments only.
With a non-null tag it is `on = true, tag = tag, data = data`; with a null tag
it is `on = false, tag = NULL, data = 0`, whatever `data` was passed and
whatever the slot held before. -/
theorem register_hook_resets (g : Globals) (file : Option String) (line : Int)
    (tag : Option String) (data : Nat) :
    (ktest_register_hook file line tag data g).kthook
      = match tag with
        | some t => { on_ := true, tag := some t, data := data }
        | none => { on_ := false, tag := none, data := 0 } := by
  cases tag with
  | none => simp [register_hook_none, kthook_zero]
  | some t => simp [register_hook_some]

/-! ## Injection point -/

theorem setup_hook_cond_of_armed (t : String) (d : Nat) (tr : TestRunState) (tagname : String) :
    KTEST_SETUP_HOOK_cond (some tagname) { test := tr, kthook := { on_ := true, data := d, tag := some t } }
      = .ret (decide (strcmp (some t) (some tagname) = .ret 0)) := by
  simp [KTEST_SETUP_HOOK_cond, strcmp, Outcome.bind]

theorem setup_hook_cond_of_unarmed (tr : TestRunState) (tagname : Option String) :
    KTEST_SETUP_HOOK_cond tagname { test := tr, kthook := kthook_zero } = .ret false := by
  simp [KTEST_SETUP_HOOK_cond, kthook_zero]

theorem setup_hook_of_armed (caller file : Option String) (line : Int) (t : String) (d : Nat)
    (tr : TestRunState) (tagname : String) :
    ktest_setup_hook caller file line (some tagname)
        { test := tr, kthook := { on_ := true, data := d, tag := some t } }
      = if strcmp (some t) (some tagname) = .ret 0 then
          .ret (d, { test := tr, kthook := { on_ := true, data := d, tag := some t } })
        else .abort := by
  by_cases h : strcmpChars t.data tagname.data = 0 <;>
    simp [ktest_setup_hook, strcmp, Outcome.bind, h]

theorem setup_hook_of_unarmed (caller file : Option String) (line : Int)
    (tr : TestRunState) (tagname : String) :
    ktest_setup_hook caller file line (some tagname) { test := tr, kthook := kthook_zero }
      = .ub := by
  simp [ktest_setup_hook, strcmp, Outcome.bind, kthook_zero]

/-- Every state reached by arming calls from a zeroed slot is either zeroed or
armed with a non-null tag. -/
theorem register_all_shape (calls : List HookCall) (g : Globals)
    (hg : g.kthook = kthook_zero ∨ ∃ t d, g.kthook = { on_ := true, data := d, tag := some t }) :
    (register_all calls g).test = g.test ∧
    ((register_all calls g).kthook = kthook_zero ∨
      ∃ t d, (register_all calls g).kthook = { on_ := true, data := d, tag := some t }) := by
  induction calls generalizing g with
  | nil => exact ⟨rfl, hg⟩
  | cons c rest ih =>
    have hstep : (ktest_register_hook c.file c.line c.tag c.data g).test = g.test ∧
        ((ktest_register_hook c.file c.line c.tag c.data g).kthook = kthook_zero ∨
          ∃ t d, (ktest_register_hook c.file c.line c.tag c.data g).kthook
            = { on_ := true, data := d, tag := some t }) := by
      cases hc : c.tag with
      | none => simp [register_hook_none]
      | some t => simp [register_hook_some]
    have h := ih (ktest_register_hook c.file c.line c.tag c.data g) hstep.2
    exact ⟨h.1.trans hstep.1, h.2⟩

/-- The block `KTEST_SETUP_HOOK` on a slot that is zeroed or armed with a
non-null tag. -/
theorem setup_hook_block_shape {T : Type} (g : Globals)
    (hg : g.kthook = kthook_zero ∨ ∃ t d, g.kthook = { on_ := true, data := d, tag := some t })
    (func file : String) (line : Int) (tagname : String) (type : Nat → T) (var : T) :
    KTEST_SETUP_HOOK_cond (some tagname) g
      = .ret (decide (g.kthook.on_ = true ∧ strcmp g.kthook.tag (some tagname) = .ret 0)) ∧
    KTEST_SETUP_HOOK func file line (some tagname) type var g
      = .ret (if g.kthook.on_ = true ∧ strcmp g.kthook.tag (some tagname) = .ret 0
          then type g.kthook.data else var, g) ∧
    ktest_setup_hook (some func) (some file) line (some tagname) g
      = if g.kthook.on_ = true ∧ strcmp g.kthook.tag (some tagname) = .ret 0
          then .ret (g.kthook.data, g) else fatal_end g := by
  obtain ⟨tr, k⟩ := g
  rcases hg with hz | ⟨t, d, ha⟩
  · simp only at hz
    subst hz
    refine ⟨?_, ?_, ?_⟩
    · rw [setup_hook_cond_of_unarmed]
      simp [kthook_zero]
    · rw [KTEST_SETUP_HOOK, setup_hook_cond_of_unarmed]
      simp [Outcome.bind, kthook_zero]
    · rw [setup_hook_of_unarmed]
      simp [fatal_end, kthook_zero]
  · simp only at ha
    subst ha
    refine ⟨?_, ?_, ?_⟩
    · simp [setup_hook_cond_of_armed]
    · by_cases h : strcmp (some t) (some tagname) = .ret 0 <;>
        simp [KTEST_SETUP_HOOK, setup_hook_cond_of_armed, setup_hook_of_armed, Outcome.bind, h]
    · by_cases h : strcmp (some t) (some tagname) = .ret 0 <;>
        simp [setup_hook_of_armed, fatal_end, h]

/-- C5. Injection point semantics: in every slot state left by
`ktest_register_hook`, for every non-null `tagname`, `KTEST_SETUP_HOOK(tagname,
T, var)` returns normally, leaves `var` equal to `(T) kthook.data` when
`kthook.on` is true and `strcmp` finds `kthook.tag` equal to `tagname`, leaves
`var` unchanged otherwise, and in both cases leaves the globals (the hook slot
among them) unchanged. -/
theorem setup_hook_block_semantics {T : Type} (g0 : Globals) (file0 : Option String)
    (line0 : Int) (tag : Option String) (data : Nat)
    (func file : String) (line : Int) (tagname : String) (type : Nat → T) (var : T) :
    KTEST_SETUP_HOOK func file line (some tagname) type var
        (ktest_register_hook file0 line0 tag data g0)
      = .ret (if (ktest_register_hook file0 line0 tag data g0).kthook.on_ = true ∧
                strcmp (ktest_register_hook file0 line0 tag data g0).kthook.tag (some tagname)
                  = .ret 0
              then type (ktest_register_hook file0 line0 tag data g0).kthook.data
              else var,
              ktest_register_hook file0 line0 tag data g0) := by
  have hshape : (ktest_register_hook file0 line0 tag data g0).kthook = kthook_zero ∨
      ∃ t d, (ktest_register_hook file0 line0 tag data g0).kthook
        = { on_ := true, data := d, tag := some t } := by
    cases tag with
    | none => simp [register_hook_none]
    | some t => simp [register_hook_some]
  exact (setup_hook_block_shape _ hshape func file line tagname type var).2.1

/-- C6. The gate of the injection point keeps the fatal paths out of reach: in
every state reached from the zero-initialised slot by any sequence of
`ktest_register_hook` calls, the slot is unarmed or its stored tag is non-null; for
every non-null `tagname` the controlling expression of `KTEST_SETUP_HOOK`
evaluates without touching a null stored tag and is true exactly when the slot
is armed with a tag `strcmp` finds equal; the block returns normally (no
`abort()`, no failed `assert`, no undefined behaviour); and a call of
`ktest_setup_hook` in that state returns exactly when the gate is open and is
fatal otherwise, so the block, which is not fatal, makes the call only under
an open gate. -/
theorem setup_hook_gate_safe {T : Type} (calls : List HookCall) (tr : TestRunState)
    (func file : String) (line : Int) (tagname : String) (type : Nat → T) (var : T) :
    ((register_all calls { test := tr, kthook := kthook_zero }).kthook.on_ = false ∨
      (register_all calls { test := tr, kthook := kthook_zero }).kthook.tag.isSome = true) ∧
    KTEST_SETUP_HOOK_cond (some tagname) (register_all calls { test := tr, kthook := kthook_zero })
      = .ret (decide
          ((register_all calls { test := tr, kthook := kthook_zero }).kthook.on_ = true ∧
            strcmp (register_all calls { test := tr, kthook := kthook_zero }).kthook.tag
              (some tagname) = .ret 0)) ∧
    KTEST_SETUP_HOOK func file line (some tagname) type var
        (register_all calls { test := tr, kthook := kthook_zero })
      = .ret (if (register_all calls { test := tr, kthook := kthook_zero }).kthook.on_ = true ∧
                strcmp (register_all calls { test := tr, kthook := kthook_zero }).kthook.tag
                  (some tagname) = .ret 0
              then type (register_all calls { test := tr, kthook := kthook_zero }).kthook.data
              else var,
              register_all calls { test := tr, kthook := kthook_zero }) ∧
    ktest_setup_hook (some func) (some file) line (some tagname)
        (register_all calls { test := tr, kthook := kthook_zero })
      = (if (register_all calls { test := tr, kthook := kthook_zero }).kthook.on_ = true ∧
              strcmp (register_all calls { test := tr, kthook := kthook_zero }).kthook.tag
                (some tagname) = .ret 0
          then .ret ((register_all calls { test := tr, kthook := kthook_zero }).kthook.data,
                register_all calls { test := tr, kthook := kthook_zero })
          else fatal_end (register_all calls { test := tr, kthook := kthook_zero })) ∧
    (fatal_end (register_all calls { test := tr, kthook := kthook_zero })).returns = false := by
  have hshape := (register_all_shape calls { test := tr, kthook := kthook_zero } (Or.inl rfl)).2
  have hb := setup_hook_block_shape _ hshape func file line tagname type var
  refine ⟨?_, hb.1, hb.2.1, hb.2.2, ?_⟩
  · rcases hshape with hz | ⟨t, d, ha⟩
    · rw [hz]
      simp [kthook_zero]
    · rw [ha]
      simp
  · unfold fatal_end
    split <;> rfl

/-- C7. Disarm: after `ktest_register_hook(_, _, NULL, v)`, from any prior state
and for any `v`, the slot has `on == false`; for every non-null `tagname` the
gate of `KTEST_SETUP_HOOK` is closed and the block returns with `var` and the
globals unchanged, in a state where a call of `ktest_setup_hook` would not
return, so the call is not made; and arming with a null tag once more gives
the same state. -/
theorem disarm_skips_consumption {T : Type} (g : Globals) (file0 file1 : Option String)
    (line0 line1 : Int) (v v1 : Nat)
    (func file : String) (line : Int) (tagname : String) (type : Nat → T) (var : T) :
    (ktest_register_hook file0 line0 none v g).kthook.on_ = false ∧
    KTEST_SETUP_HOOK_cond (some tagname) (ktest_register_hook file0 line0 none v g)
      = .ret false ∧
    KTEST_SETUP_HOOK func file line (some tagname) type var
        (ktest_register_hook file0 line0 none v g)
      = .ret (var, ktest_register_hook file0 line0 none v g) ∧
    (ktest_setup_hook (some func) (some file) line (some tagname)
        (ktest_register_hook file0 line0 none v g)).returns = false ∧
    ktest_register_hook file1 line1 none v1 (ktest_register_hook file0 line0 none v g)
      = ktest_register_hook file0 line0 none v g := by
  refine ⟨?_, ?_, ?_, ?_, ?_⟩
  · simp [register_hook_none, kthook_zero]
  · simp [register_hook_none, setup_hook_cond_of_unarmed]
  · simp [register_hook_none, KTEST_SETUP_HOOK, setup_hook_cond_of_unarmed, Outcome.bind]
  · simp [register_hook_none, setup_hook_of_unarmed, Outcome.returns]
  · simp [register_hook_none]

/-! ## Result aggregation -/

theorem wrapInt_of_isInt (x : Int) (h : IsInt x) : wrapInt x = x := by
  unfold IsInt INT_MIN INT_MAX at h
  unfold wrapInt
  omega

theorem wrapInt_succ (x : Int) (h : IsInt x) (hlt : x < INT_MAX) : wrapInt (x + 1) = x + 1 := by
  unfold IsInt INT_MIN INT_MAX at h
  unfold INT_MAX at hlt
  unfold wrapInt
  omega

theorem isInt_wrapInt (x : Int) : IsInt (wrapInt x) := by
  unfold IsInt INT_MIN INT_MAX wrapInt
  omega

/-- The state of `test` after one completed assertion that recorded `st`. -/
theorem record_announce_test (cs : CallSite) (tag : Option String) (data : Int) (st : Int)
    (g : Globals) :
    (record cs st (announce_and_arm cs tag data g)).test
      = { line := cs.line,
          ntest := wrapInt (g.test.ntest + 1),
          npass := if st = PASS then wrapInt (g.test.npass + 1) else g.test.npass,
          nfails := if st = PASS then g.test.nfails else wrapInt (g.test.nfails + 1),
          status := st,
          file := some cs.file,
          msg := some cs.text,
          stmt := some cs.text } := by
  by_cases h : st = PASS <;>
    cases tag <;>
      simp [record, announce_and_arm, ktest_update_result, ktest_register_hook, h]

/-- An assertion whose evaluation completes has announced itself, armed the
slot with its own tag and data, and recorded PASS or FAIL; it returns from the
enclosing function exactly when it recorded FAIL and its form is fail-fast. -/
theorem exec_ret {σ : Type} (a : Assertion σ) (g : Globals) (u : σ) (c : Ctl)
    (g1 : Globals) (u1 : σ) (h : a.exec g u = .ret (c, g1, u1)) :
    ∃ st : Int, (st = PASS ∨ st = FAIL) ∧
      g1 = record a.site st (announce_and_arm a.site a.hookTag a.hookData g) ∧
      c = (if st = FAIL ∧ a.failFast = true then Ctl.returned else Ctl.next) := by
  cases a with
  | assert cs STMT tag data =>
    simp only [Assertion.exec, ASSERT] at h
    cases hS : STMT (announce_and_arm cs tag data g) u with
    | ret r =>
      rw [hS] at h
      by_cases hv : r.1 = 0
      · refine ⟨FAIL, Or.inr rfl, ?_⟩
        simp [Outcome.bind, hv, PASS, FAIL] at h
        simp [Assertion.site, Assertion.hookTag, Assertion.hookData, Assertion.failFast, h, FAIL]
      · refine ⟨PASS, Or.inl rfl, ?_⟩
        simp [Outcome.bind, hv, PASS, FAIL] at h
        simp [Assertion.site, Assertion.hookTag, Assertion.hookData, Assertion.failFast, h,
          PASS, FAIL]
    | assertFail => rw [hS] at h; simp [Outcome.bind] at h
    | abort => rw [hS] at h; simp [Outcome.bind] at h
    | ub => rw [hS] at h; simp [Outcome.bind] at h
  | assertInt cs ty EXPT STMT tag data =>
    simp only [Assertion.exec, ASSERT_INT] at h
    cases hS : STMT (announce_and_arm cs tag data g) u with
    | ret r =>
      rw [hS] at h
      simp only [Outcome.bind] at h
      cases hE : EXPT.eqACT ty (wrapInt r.1) (announce_and_arm cs tag data g) r.2 with
      | ret e =>
        rw [hE] at h
        by_cases hv : e.1 = 0
        · refine ⟨FAIL, Or.inr rfl, ?_⟩
          cases hE2 : EXPT.value (announce_and_arm cs tag data g) e.2 with
          | ret e2 =>
            simp [hv, PASS, FAIL, hE2] at h
            simp [Assertion.site, Assertion.hookTag, Assertion.hookData, Assertion.failFast, h,
              FAIL]
          | assertFail => simp [hv, PASS, FAIL, hE2] at h
          | abort => simp [hv, PASS, FAIL, hE2] at h
          | ub => simp [hv, PASS, FAIL, hE2] at h
        · refine ⟨PASS, Or.inl rfl, ?_⟩
          simp [hv, PASS, FAIL] at h
          simp [Assertion.site, Assertion.hookTag, Assertion.hookData, Assertion.failFast, h,
            PASS, FAIL]
      | assertFail => rw [hE] at h; simp at h
      | abort => rw [hE] at h; simp at h
      | ub => rw [hE] at h; simp at h
    | assertFail => rw [hS] at h; simp [Outcome.bind] at h
    | abort => rw [hS] at h; simp [Outcome.bind] at h
    | ub => rw [hS] at h; simp [Outcome.bind] at h
  | assertString cs EXPT STMT tag data =>
    simp only [Assertion.exec, ASSERT_STRING] at h
    cases hE : EXPT (announce_and_arm cs tag data g) u with
    | ret e =>
      rw [hE] at h
      simp only [Outcome.bind] at h
      cases hS : STMT (announce_and_arm cs tag data g) e.2 with
      | ret r =>
        rw [hS] at h
        simp only at h
        cases hC : strcmp e.1 r.1 with
        | ret c =>
          rw [hC] at h
          by_cases hv : c = 0
          · refine ⟨PASS, Or.inl rfl, ?_⟩
            simp [hv, PASS, FAIL] at h
            simp [Assertion.site, Assertion.hookTag, Assertion.hookData, Assertion.failFast, h,
              PASS, FAIL]
          · refine ⟨FAIL, Or.inr rfl, ?_⟩
            simp [hv, PASS, FAIL] at h
            simp [Assertion.site, Assertion.hookTag, Assertion.hookData, Assertion.failFast, h,
              FAIL]
        | assertFail => rw [hC] at h; simp at h
        | abort => rw [hC] at h; simp at h
        | ub => rw [hC] at h; simp at h
      | assertFail => rw [hS] at h; simp at h
      | abort => rw [hS] at h; simp at h
      | ub => rw [hS] at h; simp at h
    | assertFail => rw [hE] at h; simp [Outcome.bind] at h
    | abort => rw [hE] at h; simp [Outcome.bind] at h
    | ub => rw [hE] at h; simp [Outcome.bind] at h
  | expectType cs ty EXPT STMT tag data =>
    simp only [Assertion.exec, EXPECT_TYPE] at h
    cases hS : STMT (announce_and_arm cs tag data g) u with
    | ret r =>
      rw [hS] at h
      simp only [Outcome.bind] at h
      cases hE : EXPT.eqACT ty (wrapInt r.1) (announce_and_arm cs tag data g) r.2 with
      | ret e =>
        rw [hE] at h
        by_cases hv : e.1 = 0
        · refine ⟨FAIL, Or.inr rfl, ?_⟩
          cases hE2 : EXPT.value (announce_and_arm cs tag data g) e.2 with
          | ret e2 =>
            simp [hv, PASS, FAIL, hE2] at h
            simp [Assertion.site, Assertion.hookTag, Assertion.hookData, Assertion.failFast, h,
              FAIL]
          | assertFail => simp [hv, PASS, FAIL, hE2] at h
          | abort => simp [hv, PASS, FAIL, hE2] at h
          | ub => simp [hv, PASS, FAIL, hE2] at h
        · refine ⟨PASS, Or.inl rfl, ?_⟩
          simp [hv, PASS, FAIL] at h
          simp [Assertion.site, Assertion.hookTag, Assertion.hookData, Assertion.failFast, h,
            PASS, FAIL]
      | assertFail => rw [hE] at h; simp at h
      | abort => rw [hE] at h; simp at h
      | ub => rw [hE] at h; simp at h
    | assertFail => rw [hS] at h; simp [Outcome.bind] at h
    | abort => rw [hS] at h; simp [Outcome.bind] at h
    | ub => rw [hS] at h; simp [Outcome.bind] at h

/-- The effect of one completed assertion on `test`: the status `st` it recorded
is PASS or FAIL, the last-outcome fields are those of its call site, `ntest`
went through `++` once, and so did exactly one of `npass` and `nfails`. Control
leaves the enclosing function exactly on FAIL in a fail-fast form. -/
theorem exec_effect {σ : Type} (a : Assertion σ) (g : Globals) (u : σ) (c : Ctl)
    (g1 : Globals) (u1 : σ) (h : a.exec g u = .ret (c, g1, u1)) :
    (g1.test.status = PASS ∨ g1.test.status = FAIL) ∧
    c = (if g1.test.status = FAIL ∧ a.failFast = true then Ctl.returned else Ctl.next) ∧
    g1.test.ntest = wrapInt (g.test.ntest + 1) ∧
    g1.test.npass
      = (if g1.test.status = PASS then wrapInt (g.test.npass + 1) else g.test.npass) ∧
    g1.test.nfails
      = (if g1.test.status = PASS then g.test.nfails else wrapInt (g.test.nfails + 1)) ∧
    g1.test.file = some a.site.file ∧ g1.test.line = a.site.line ∧
    g1.test.msg = some a.site.text ∧ g1.test.stmt = some a.site.text := by
  obtain ⟨st, hst, hg1, hc⟩ := exec_ret a g u c g1 u1 h
  have ht := record_announce_test a.site a.hookTag a.hookData st g
  rw [← hg1] at ht
  rw [ht]
  exact ⟨hst, hc, rfl, rfl, rfl, rfl, rfl, rfl, rfl⟩

/-- The counters after one completed assertion, when none of them is at
`INT_MAX`: `ntest` went up by one, and so did exactly one of `npass` (PASS was
recorded) and `nfails` (FAIL was recorded). -/
theorem exec_counters {σ : Type} (a : Assertion σ) (g : Globals) (u : σ) (c : Ctl)
    (g1 : Globals) (u1 : σ) (h : a.exec g u = .ret (c, g1, u1))
    (hn : IsInt g.test.ntest) (hp : IsInt g.test.npass) (hf : IsInt g.test.nfails)
    (hn1 : g.test.ntest < INT_MAX) (hp1 : g.test.npass < INT_MAX)
    (hf1 : g.test.nfails < INT_MAX) :
    g1.test.ntest = g.test.ntest + 1 ∧
    ((g1.test.status = PASS ∧ c = Ctl.next ∧
        g1.test.npass = g.test.npass + 1 ∧ g1.test.nfails = g.test.nfails) ∨
     (g1.test.status = FAIL ∧ c = (if a.failFast = true then Ctl.returned else Ctl.next) ∧
        g1.test.npass = g.test.npass ∧ g1.test.nfails = g.test.nfails + 1)) := by
  obtain ⟨hst, hc, hnt, hnp, hnf, _⟩ := exec_effect a g u c g1 u1 h
  refine ⟨by rw [hnt]; exact wrapInt_succ _ hn hn1, ?_⟩
  rcases hst with hs | hs
  · left
    rw [hs] at hc hnp hnf
    refine ⟨hs, ?_, ?_, ?_⟩
    · simpa [PASS, FAIL] using hc
    · rw [hnp]; simpa using wrapInt_succ _ hp hp1
    · rw [hnf]; simp
  · right
    rw [hs] at hc hnp hnf
    refine ⟨hs, ?_, ?_, ?_⟩
    · simpa using hc
    · rw [hnp]; simp [PASS, FAIL]
    · rw [hnf]; simpa [PASS, FAIL] using wrapInt_succ _ hf hf1

/-- Counter invariant along a sequence of completed assertion evaluations that
stays below `INT_MAX`. -/
theorem evalAll_counters {σ : Type} (as : List (Assertion σ)) :
    ∀ (g : Globals) (u : σ) (g1 : Globals) (u1 : σ),
      evalAll as g u = .ret (g1, u1) →
      0 ≤ g.test.npass → 0 ≤ g.test.nfails →
      g.test.npass + g.test.nfails = g.test.ntest →
      g.test.ntest + (as.length : Int) ≤ INT_MAX →
      g1.test.ntest = g.test.ntest + (as.length : Int) ∧
      g1.test.npass + g1.test.nfails = g1.test.ntest ∧
      0 ≤ g1.test.npass ∧ 0 ≤ g1.test.nfails := by
  induction as with
  | nil =>
    intro g u g1 u1 h hp hf hsum _
    simp only [evalAll, Outcome.ret.injEq, Prod.mk.injEq] at h
    obtain ⟨rfl, rfl⟩ := h
    simp [hp, hf, hsum]
  | cons a rest ih =>
    intro g u g1 u1 h hp hf hsum hlen
    simp only [evalAll] at h
    cases hx : a.exec g u with
    | ret r =>
      obtain ⟨c, g2, u2⟩ := r
      rw [hx] at h
      simp only [Outcome.bind] at h
      have hlen2 : g.test.ntest + ((rest.length : Int) + 1) ≤ INT_MAX := by
        simpa using hlen
      have hr : (0 : Int) ≤ rest.length := Int.natCast_nonneg _
      have hI : IsInt g.test.ntest ∧ IsInt g.test.npass ∧ IsInt g.test.nfails ∧
          g.test.ntest < INT_MAX ∧ g.test.npass < INT_MAX ∧ g.test.nfails < INT_MAX := by
        unfold IsInt INT_MIN
        unfold INT_MAX at hlen2 ⊢
        omega
      obtain ⟨hn2, hcase⟩ := exec_counters a g u c g2 u2 hx hI.1 hI.2.1 hI.2.2.1
        hI.2.2.2.1 hI.2.2.2.2.1 hI.2.2.2.2.2
      have hstep : 0 ≤ g2.test.npass ∧ 0 ≤ g2.test.nfails ∧
          g2.test.npass + g2.test.nfails = g2.test.ntest := by
        rcases hcase with ⟨_, _, h3, h4⟩ | ⟨_, _, h3, h4⟩ <;> omega
      have hlen3 : g2.test.ntest + (rest.length : Int) ≤ INT_MAX := by
        rw [hn2]; omega
      have hfin := ih g2 u2 g1 u1 h hstep.1 hstep.2.1 hstep.2.2 hlen3
      refine ⟨?_, hfin.2.1, hfin.2.2.1, hfin.2.2.2⟩
      rw [hfin.1, hn2]
      simp only [List.length_cons, Nat.cast_add, Nat.cast_one]
      omega
    | assertFail => rw [hx] at h; simp [Outcome.bind] at h
    | abort => rw [hx] at h; simp [Outcome.bind] at h
    | ub => rw [hx] at h; simp [Outcome.bind] at h

/-- C10, as amended. `ktest_update_result`, in every state and for every
argument, with `status` any `int`: it returns `status` unchanged; afterwards
the last-outcome fields (file, line, msg, stmt, status) are exactly the
arguments; `ntest` and the hook slot are unchanged; exactly one of `npass` and
`nfails` is touched (`npass` iff `status == PASS`, `nfails` for every other
value) and goes through `++` once; whenever that counter is an `int` below
`INT_MAX`, it is incremented by exactly 1. -/
theorem update_result_records (g : Globals) (file : Option String) (line : Int)
    (msg stmt : Option String) (status : Int) :
    (ktest_update_result file line msg stmt status g).1 = status ∧
    (ktest_update_result file line msg stmt status g).2.test.file = file ∧
    (ktest_update_result file line msg stmt status g).2.test.line = line ∧
    (ktest_update_result file line msg stmt status g).2.test.msg = msg ∧
    (ktest_update_result file line msg stmt status g).2.test.stmt = stmt ∧
    (ktest_update_result file line msg stmt status g).2.test.status = status ∧
    (ktest_update_result file line msg stmt status g).2.test.ntest = g.test.ntest ∧
    (ktest_update_result file line msg stmt status g).2.kthook = g.kthook ∧
    (ktest_update_result file line msg stmt status g).2.test.npass
      = (if status = PASS then wrapInt (g.test.npass + 1) else g.test.npass) ∧
    (ktest_update_result file line msg stmt status g).2.test.nfails
      = (if status = PASS then g.test.nfails else wrapInt (g.test.nfails + 1)) ∧
    (IsInt (if status = PASS then g.test.npass else g.test.nfails) →
      (if status = PASS then g.test.npass else g.test.nfails) < INT_MAX →
      (ktest_update_result file line msg stmt status g).2.test.npass
        = (if status = PASS then g.test.npass + 1 else g.test.npass) ∧
      (ktest_update_result file line msg stmt status g).2.test.nfails
        = (if status = PASS then g.test.nfails else g.test.nfails + 1)) := by
  by_cases h : status = PASS
  · simp only [ktest_update_result, h, if_true]
    refine ⟨trivial, trivial, trivial, trivial, trivial, trivial, trivial, trivial, trivial,
      trivial, ?_⟩
    intro hi hlt
    exact ⟨wrapInt_succ _ hi hlt, trivial⟩
  · simp only [ktest_update_result, h, if_false]
    refine ⟨trivial, trivial, trivial, trivial, trivial, trivial, trivial, trivial, trivial,
      trivial, ?_⟩
    intro hi hlt
    exact ⟨trivial, wrapInt_succ _ hi hlt⟩

/-- Witness of C10 and of its bound: in the initial state a PASS takes `npass`
from 0 to 1 and leaves `nfails` at 0. -/
theorem update_result_records_witness :
    IsInt (if PASS = PASS then Globals.initial.test.npass else Globals.initial.test.nfails) ∧
    (if PASS = PASS then Globals.initial.test.npass else Globals.initial.test.nfails) < INT_MAX ∧
    (ktest_update_result (some "test.c") 8 (some "4") (some "4") PASS Globals.initial).2.test.npass
      = (if PASS = PASS then Globals.initial.test.npass + 1 else Globals.initial.test.npass) ∧
    (ktest_update_result (some "test.c") 8 (some "4") (some "4") PASS Globals.initial).2.test.nfails
      = (if PASS = PASS then Globals.initial.test.nfails
          else Globals.initial.test.nfails + 1) :=
  ⟨by decide, by decide,
    (update_result_records Globals.initial (some "test.c") 8 (some "4") (some "4")
      PASS).2.2.2.2.2.2.2.2.2.2 (by decide) (by decide)⟩

/-- Counterexample to C10 as stated: with `npass` at `INT_MAX` (a value an `int`
holds) and `status == PASS`, `npass` comes out as `INT_MIN`; neither counter is
its old value plus 1, and the old value of `npass` plus 1 is no `int` at all. -/
theorem update_result_overflow :
    IsInt at_overflow.test.npass ∧ IsInt at_overflow.test.nfails ∧
    (ktest_update_result (some "test.c") 8 (some "4") (some "4") PASS at_overflow).2.test.npass
      = -2147483648 ∧
    (ktest_update_result (some "test.c") 8 (some "4") (some "4") PASS at_overflow).2.test.npass
      ≠ at_overflow.test.npass + 1 ∧
    (ktest_update_result (some "test.c") 8 (some "4") (some "4") PASS at_overflow).2.test.nfails
      ≠ at_overflow.test.nfails + 1 ∧
    ¬ IsInt (at_overflow.test.npass + 1) := by
  decide

/-! ## Counter consistency -/

/-- C1, as amended. Counter consistency: starting from the zero-initialised
`test`, for every sequence of N assertion evaluations through the assertion
forms (`ASSERT`, `ASSERT_INT`, `ASSERT_STRING`, `EXPECT_TYPE`, in any mix, with
any operands and any outcomes) that have all completed, with N at most
`INT_MAX`: `test.ntest == N` and `test.npass + test.nfails == N`, hence
`ntest == npass + nfails`. -/
theorem counters_consistent {σ : Type} (as : List (Assertion σ)) (g : Globals) (u : σ)
    (g1 : Globals) (u1 : σ) (h0 : g.test = test_zero)
    (hN : (as.length : Int) ≤ INT_MAX) (hrun : evalAll as g u = .ret (g1, u1)) :
    g1.test.ntest = (as.length : Int) ∧
    g1.test.npass + g1.test.nfails = (as.length : Int) ∧
    g1.test.ntest = g1.test.npass + g1.test.nfails := by
  have h := evalAll_counters as g u g1 u1 hrun (by rw [h0]; decide) (by rw [h0]; decide)
    (by rw [h0]; decide) (by rw [h0]; simpa [test_zero] using hN)
  rw [h0] at h
  simp only [test_zero, zero_add] at h
  refine ⟨h.1, ?_, ?_⟩
  · rw [h.2.1, h.1]
  · rw [h.2.1]

/-- Witness of C1: the suite of `test.c`. Its eleven assertions all complete
and pass; `main` returns 0 with `ntest = 11`, `npass = 11`, `nfails = 0`. -/
theorem counters_consistent_witness :
    (Globals.initial.test = test_zero ∧
      ((suite_assertions.length : Nat) : Int) ≤ INT_MAX ∧
      evalAll suite_assertions Globals.initial () = .ret (suite_final, ())) ∧
    main Globals.initial = .ret (0, suite_final) ∧
    (suite_final.test.ntest = 11 ∧ suite_final.test.npass = 11 ∧
      suite_final.test.nfails = 0) ∧
    (suite_final.test.ntest = ((suite_assertions.length : Nat) : Int) ∧
      suite_final.test.npass + suite_final.test.nfails
        = ((suite_assertions.length : Nat) : Int) ∧
      suite_final.test.ntest = suite_final.test.npass + suite_final.test.nfails) :=
  ⟨⟨rfl, by decide, by decide⟩, by decide, by decide,
    counters_consistent suite_assertions Globals.initial () suite_final () rfl
      (by decide) (by decide)⟩

theorem always_pass_exec (g : Globals) :
    always_pass.exec g ()
      = .ret (Ctl.next,
          record ⟨"test.c", 38, "2 == 2"⟩ PASS
            (announce_and_arm ⟨"test.c", 38, "2 == 2"⟩ none 0 g), ()) := by
  simp [always_pass, Assertion.exec, ASSERT, Operand.lit, Outcome.bind, cBool, PASS, FAIL]

theorem wrapInt_wrapInt_add (x : Int) (n : Nat) :
    wrapInt (wrapInt (x + 1) + (n : Int)) = wrapInt (x + ((n + 1 : Nat) : Int)) := by
  unfold wrapInt
  push_cast
  omega

theorem evalAll_cons_always_pass (rest : List (Assertion Unit)) (g : Globals) :
    evalAll (always_pass :: rest) g ()
      = evalAll rest (record ⟨"test.c", 38, "2 == 2"⟩ PASS
          (announce_and_arm ⟨"test.c", 38, "2 == 2"⟩ none 0 g)) () := by
  simp only [evalAll, always_pass_exec, Outcome.bind]

/-- Evaluating `always_pass` one time after the other. -/
theorem evalAll_always_pass (n : Nat) :
    ∀ g : Globals, evalAll (List.replicate (n + 1) always_pass) g ()
      = .ret (after_passes g (n + 1), ()) := by
  induction n with
  | zero =>
    intro g
    rw [List.replicate_succ, evalAll_cons_always_pass]
    simp [evalAll, after_passes, record, announce_and_arm, ktest_update_result,
      ktest_register_hook, PASS]
  | succ k ih =>
    intro g
    rw [List.replicate_succ, evalAll_cons_always_pass, ih]
    simp only [after_passes, record_announce_test]
    simp only [PASS, if_true, wrapInt_wrapInt_add]

/-- Counterexample to C1 as stated: 2147483648 evaluations of the passing
`ASSERT(2 == 2, NULL, NULL)` from the zero-initialised state all complete, and
then `ntest` is -2147483648, not 2147483648, and so is `npass + nfails`; no
`int` is 2147483648. -/
theorem counters_overflow :
    ((List.replicate 2147483648 always_pass).length = 2147483648 ∧
      Globals.initial.test = test_zero ∧
      evalAll (List.replicate 2147483648 always_pass) Globals.initial ()
        = .ret (after_passes Globals.initial 2147483648, ())) ∧
    (after_passes Globals.initial 2147483648).test.ntest = -2147483648 ∧
    (after_passes Globals.initial 2147483648).test.npass
      + (after_passes Globals.initial 2147483648).test.nfails = -2147483648 ∧
    (after_passes Globals.initial 2147483648).test.ntest ≠ 2147483648 ∧
    ¬ IsInt 2147483648 :=
  ⟨⟨List.length_replicate _ _, rfl, evalAll_always_pass 2147483647 Globals.initial⟩,
    by decide, by decide, by decide, by decide⟩

/-! ## Failure propagation -/

theorem pass_ne_fail : PASS ≠ FAIL := by decide

/-- C8, as amended. Fail-fast: a test function with body `A1; A2; A3`, where A1
completes and passes, A2 is of a fail-fast form (`ASSERT`, `ASSERT_INT` /
`TEST_INT_EQUAL` / `TEST_BOOL_EQUAL`, `ASSERT_STRING` / `TEST_STRING_EQUAL`)
and completes with FAIL, and A3 is any assertion, run from counters
`(n, p, f)` with `n + 2`, `p + 1` and `f + 1` at most `INT_MAX`, returns right
after A2 is recorded: its end state is the state A2 left, with counters
`(n + 2, p + 1, f + 1)`, and is the same as for the body `A1; A2`, whatever A3
is, so nothing of A3 is evaluated. -/
theorem fail_fast_returns {σ : Type} (A1 A2 A3 : Assertion σ) (g : Globals) (u : σ)
    (c1 : Ctl) (g1 : Globals) (u1 : σ) (c2 : Ctl) (g2 : Globals) (u2 : σ)
    (hkind : A2.failFast = true)
    (h1 : A1.exec g u = .ret (c1, g1, u1)) (hpass : g1.test.status = PASS)
    (h2 : A2.exec g1 u1 = .ret (c2, g2, u2)) (hfail : g2.test.status = FAIL)
    (hn : IsInt g.test.ntest) (hp : IsInt g.test.npass) (hf : IsInt g.test.nfails)
    (hn2 : g.test.ntest + 2 ≤ INT_MAX) (hp1 : g.test.npass + 1 ≤ INT_MAX)
    (hf1 : g.test.nfails + 1 ≤ INT_MAX) :
    runBody [A1.exec, A2.exec, A3.exec] g u = .ret (g2, u2) ∧
    runBody [A1.exec, A2.exec] g u = .ret (g2, u2) ∧
    c2 = Ctl.returned ∧
    g2.test.ntest = g.test.ntest + 2 ∧
    g2.test.npass = g.test.npass + 1 ∧
    g2.test.nfails = g.test.nfails + 1 := by
  obtain ⟨_, hc1, hnt1, hnp1, hnf1, _⟩ := exec_effect A1 g u c1 g1 u1 h1
  obtain ⟨_, hc2, hnt2, hnp2, hnf2, _⟩ := exec_effect A2 g1 u1 c2 g2 u2 h2
  have hpf : PASS ≠ FAIL := pass_ne_fail
  rw [hpass] at hc1 hnp1 hnf1
  rw [hfail] at hc2 hnp2 hnf2
  simp only [hpf, false_and, if_false, if_true] at hc1 hnp1 hnf1
  simp only [hkind, and_self, if_true, hpf.symm, if_false] at hc2 hnp2 hnf2
  subst hc1 hc2
  have e1 : wrapInt (g.test.ntest + 1) = g.test.ntest + 1 := by
    unfold IsInt INT_MIN INT_MAX at hn
    unfold INT_MAX at hn2
    unfold wrapInt
    omega
  have e2 : wrapInt (g.test.ntest + 1 + 1) = g.test.ntest + 2 := by
    unfold IsInt INT_MIN INT_MAX at hn
    unfold INT_MAX at hn2
    unfold wrapInt
    omega
  have e3 : wrapInt (g.test.npass + 1) = g.test.npass + 1 := by
    unfold IsInt INT_MIN INT_MAX at hp
    unfold INT_MAX at hp1
    unfold wrapInt
    omega
  have e4 : wrapInt (g.test.nfails + 1) = g.test.nfails + 1 := by
    unfold IsInt INT_MIN INT_MAX at hf
    unfold INT_MAX at hf1
    unfold wrapInt
    omega
  refine ⟨?_, ?_, rfl, ?_, ?_, ?_⟩
  · simp [runBody, h1, h2]
  · simp [runBody, h1, h2]
  · rw [hnt2, hnt1, e1, e2]
  · rw [hnp2, hnp1, e3]
  · rw [hnf2, hnf1, e4]

/-- Witness of C8: `TEST_INT_EQUAL(4, 4)`, then the failing
`TEST_INT_EQUAL(4, -1)`, then an `ASSERT` whose statement would call `abort()`.
From the initial state the test returns normally with counters `(2, 1, 1)`;
the operand state counts five operand evaluations (two in A1; in A2 the actual
operand once and the expected operand twice) and none for A3. -/
theorem fail_fast_returns_witness :
    (sample_fail.failFast = true ∧
      sample_pass.exec Globals.initial 0
        = .ret (Ctl.next,
            record ⟨"test.c", 8, "4"⟩ PASS
              (announce_and_arm ⟨"test.c", 8, "4"⟩ none 0 Globals.initial), 2) ∧
      sample_fail.exec
          (record ⟨"test.c", 8, "4"⟩ PASS
            (announce_and_arm ⟨"test.c", 8, "4"⟩ none 0 Globals.initial)) 2
        = .ret (Ctl.returned,
            { test := { line := 9, ntest := 2, npass := 1, nfails := 1, status := FAIL,
                        file := some "test.c", msg := some "-1", stmt := some "-1" },
              kthook := kthook_zero }, 5)) ∧
    sample_fatal.exec
        { test := { line := 9, ntest := 2, npass := 1, nfails := 1, status := FAIL,
                    file := some "test.c", msg := some "-1", stmt := some "-1" },
          kthook := kthook_zero } 5 = .abort ∧
    runBody [sample_pass.exec, sample_fail.exec, sample_fatal.exec] Globals.initial 0
      = .ret ({ test := { line := 9, ntest := 2, npass := 1, nfails := 1, status := FAIL,
                          file := some "test.c", msg := some "-1", stmt := some "-1" },
                kthook := kthook_zero }, 5) :=
  ⟨⟨by decide, by decide, by decide⟩, by decide,
    (fail_fast_returns sample_pass sample_fail sample_fatal Globals.initial 0
      Ctl.next
      (record ⟨"test.c", 8, "4"⟩ PASS
        (announce_and_arm ⟨"test.c", 8, "4"⟩ none 0 Globals.initial)) 2
      Ctl.returned
      { test := { line := 9, ntest := 2, npass := 1, nfails := 1, status := FAIL,
                  file := some "test.c", msg := some "-1", stmt := some "-1" },
        kthook := kthook_zero } 5
      (by decide) (by decide) (by decide) (by decide) (by decide)
      (by decide) (by decide) (by decide) (by decide) (by decide) (by decide)).1⟩

/-- Counterexample to C8 as stated: from counters `(2147483646, 2147483646, 0)`
(every earlier assertion passed) the test `A1; A2; A3` with A1 passing and A2 a
failing `TEST_INT_EQUAL` ends with `ntest = -2147483648`, not `n + 2`, which
is no `int`. -/
theorem fail_fast_overflow :
    IsInt near_overflow.test.ntest ∧
    runBody [sample_pass.exec, sample_fail.exec, sample_fatal.exec] near_overflow 0
      = .ret ({ test := { line := 9, ntest := -2147483648, npass := 2147483647,
                          nfails := 1, status := FAIL,
                          file := some "test.c", msg := some "-1", stmt := some "-1" },
                kthook := kthook_zero }, 5) ∧
    (-2147483648 : Int) ≠ near_overflow.test.ntest + 2 ∧
    ¬ IsInt (near_overflow.test.ntest + 2) := by
  decide

/-- C9, as amended. Collect-and-continue: a test function with body
`A1; A2; A3`, where A1 completes and passes, A2 is an `EXPECT_TYPE` /
`EXPECT_INT_EQUAL` that completes with FAIL and A3 is any assertion whose
evaluation completes, run from counters `(n, p, f)` with `n + 3`, `p + 2` and
`f + 2` at most `INT_MAX`, evaluates and records all three: it ends in the
state A3 left, with `ntest = n + 3`, `nfails >= f + 1` and
`npass + nfails = p + f + 3`, and the last recorded outcome (file, line, msg,
stmt, status) is A3's. -/
theorem expect_continues {σ : Type} (A1 A3 : Assertion σ) (cs : CallSite) (ty : CIntType)
    (EXPT : Expected σ) (STMT : Operand σ Int) (HOOK_TAG : Option String) (HOOK_DATA : Int)
    (g : Globals) (u : σ) (c1 : Ctl) (g1 : Globals) (u1 : σ) (c2 : Ctl) (g2 : Globals) (u2 : σ)
    (c3 : Ctl) (g3 : Globals) (u3 : σ)
    (h1 : A1.exec g u = .ret (c1, g1, u1)) (hpass : g1.test.status = PASS)
    (h2 : EXPECT_INT_EQUAL cs ty EXPT STMT HOOK_TAG HOOK_DATA g1 u1 = .ret (c2, g2, u2))
    (hfail : g2.test.status = FAIL)
    (h3 : A3.exec g2 u2 = .ret (c3, g3, u3))
    (hn : IsInt g.test.ntest) (hp : IsInt g.test.npass) (hf : IsInt g.test.nfails)
    (hn3 : g.test.ntest + 3 ≤ INT_MAX) (hp2 : g.test.npass + 2 ≤ INT_MAX)
    (hf2 : g.test.nfails + 2 ≤ INT_MAX) :
    runBody [A1.exec, EXPECT_INT_EQUAL cs ty EXPT STMT HOOK_TAG HOOK_DATA, A3.exec] g u
      = .ret (g3, u3) ∧
    g3.test.ntest = g.test.ntest + 3 ∧
    g3.test.nfails ≥ g.test.nfails + 1 ∧
    g3.test.npass + g3.test.nfails = g.test.npass + g.test.nfails + 3 ∧
    g3.test.file = some A3.site.file ∧ g3.test.line = A3.site.line ∧
    g3.test.msg = some A3.site.text ∧ g3.test.stmt = some A3.site.text ∧
    (g3.test.status = PASS ∨ g3.test.status = FAIL) := by
  have h2a : (Assertion.expectType cs ty EXPT STMT HOOK_TAG HOOK_DATA).exec g1 u1
      = .ret (c2, g2, u2) := h2
  obtain ⟨_, hc1, hnt1, hnp1, hnf1, _⟩ := exec_effect A1 g u c1 g1 u1 h1
  obtain ⟨_, hc2, hnt2, hnp2, hnf2, _⟩ := exec_effect _ g1 u1 c2 g2 u2 h2a
  obtain ⟨hst3, hc3, hnt3, hnp3, hnf3, hfile, hline, hmsg, hstmt⟩ :=
    exec_effect A3 g2 u2 c3 g3 u3 h3
  have hpf : PASS ≠ FAIL := pass_ne_fail
  rw [hpass] at hc1 hnp1 hnf1
  rw [hfail] at hc2 hnp2 hnf2
  simp only [hpf, false_and, if_false, if_true] at hc1 hnp1 hnf1
  simp only [hpf.symm, if_false] at hnp2 hnf2
  have hc2n : c2 = Ctl.next := by simpa [Assertion.failFast] using hc2
  subst hc1 hc2n
  unfold IsInt INT_MIN INT_MAX at hn hp hf
  unfold INT_MAX at hn3 hp2 hf2
  have hrun : runBody [A1.exec, EXPECT_INT_EQUAL cs ty EXPT STMT HOOK_TAG HOOK_DATA, A3.exec] g u
      = .ret (g3, u3) := by
    simp only [runBody, h1, h2, h3]
    cases c3 <;> rfl
  refine ⟨hrun, ?_, ?_, ?_, hfile, hline, hmsg, hstmt, hst3⟩
  · rw [hnt3, hnt2, hnt1]
    unfold wrapInt
    omega
  · rcases hst3 with hs | hs
    · rw [hnf3, hs, hnf2, hnf1]
      simp only [if_true]
      unfold wrapInt
      omega
    · rw [hnf3, hs, hnf2, hnf1]
      simp only [hpf.symm, if_false]
      unfold wrapInt
      omega
  · rcases hst3 with hs | hs
    · rw [hnp3, hnf3, hs, hnp2, hnf2, hnp1, hnf1]
      simp only [if_true]
      unfold wrapInt
      omega
    · rw [hnp3, hnf3, hs, hnp2, hnf2, hnp1, hnf1]
      simp only [hpf.symm, if_false]
      unfold wrapInt
      omega

/-- Witness of C9: `TEST_INT_EQUAL(4, 4)`, then the failing
`EXPECT_INT_EQUAL(4, -1)`, then the failing `TEST_INT_EQUAL(4, -1)`. From the
initial state all three are recorded: the counters end as `(3, 1, 2)` and the
last outcome is that of the third assertion. -/
theorem expect_continues_witness :
    (sample_pass.exec Globals.initial 0
        = .ret (Ctl.next,
            record ⟨"test.c", 8, "4"⟩ PASS
              (announce_and_arm ⟨"test.c", 8, "4"⟩ none 0 Globals.initial), 2) ∧
      EXPECT_INT_EQUAL ⟨"test.c", 9, "-1"⟩ .int (.tight (.counting 4)) (.counting (-1)) none 0
          (record ⟨"test.c", 8, "4"⟩ PASS
            (announce_and_arm ⟨"test.c", 8, "4"⟩ none 0 Globals.initial)) 2
        = .ret (Ctl.next,
            { test := { line := 9, ntest := 2, npass := 1, nfails := 1, status := FAIL,
                        file := some "test.c", msg := some "-1", stmt := some "-1" },
              kthook := kthook_zero }, 5) ∧
      sample_fail.exec
          { test := { line := 9, ntest := 2, npass := 1, nfails := 1, status := FAIL,
                      file := some "test.c", msg := some "-1", stmt := some "-1" },
            kthook := kthook_zero } 5
        = .ret (Ctl.returned,
            { test := { line := 9, ntest := 3, npass := 1, nfails := 2, status := FAIL,
                        file := some "test.c", msg := some "-1", stmt := some "-1" },
              kthook := kthook_zero }, 8)) ∧
    runBody [sample_pass.exec,
        EXPECT_INT_EQUAL ⟨"test.c", 9, "-1"⟩ .int (.tight (.counting 4)) (.counting (-1)) none 0,
        sample_fail.exec] Globals.initial 0
      = .ret ({ test := { line := 9, ntest := 3, npass := 1, nfails := 2, status := FAIL,
                          file := some "test.c", msg := some "-1", stmt := some "-1" },
                kthook := kthook_zero }, 8) :=
  ⟨⟨by decide, by decide, by decide⟩,
    (expect_continues sample_pass sample_fail ⟨"test.c", 9, "-1"⟩ .int (.tight (.counting 4))
      (.counting (-1)) none 0 Globals.initial 0
      Ctl.next
      (record ⟨"test.c", 8, "4"⟩ PASS
        (announce_and_arm ⟨"test.c", 8, "4"⟩ none 0 Globals.initial)) 2
      Ctl.next
      { test := { line := 9, ntest := 2, npass := 1, nfails := 1, status := FAIL,
                  file := some "test.c", msg := some "-1", stmt := some "-1" },
        kthook := kthook_zero } 5
      Ctl.returned
      { test := { line := 9, ntest := 3, npass := 1, nfails := 2, status := FAIL,
                  file := some "test.c", msg := some "-1", stmt := some "-1" },
        kthook := kthook_zero } 8
      (by decide) (by decide) (by decide) (by decide) (by decide)
      (by decide) (by decide) (by decide) (by decide) (by decide) (by decide)).1⟩

/-- Counterexample to C9 as stated, on both counts. From counters
`(2147483646, 2147483646, 0)` (every earlier assertion passed) the test
`A1; A2; A3` with A1 passing and A2 a failing `EXPECT_INT_EQUAL` ends with
`ntest = -2147483647`, not `n + 3`, which is no `int`. And from the initial
state, with an A3 whose statement calls `abort()`, the run ends in `abort()`
and A3 is never recorded. -/
theorem expect_continues_overflow :
    IsInt near_overflow.test.ntest ∧
    runBody [sample_pass.exec, sample_expect_fail.exec, sample_fail.exec] near_overflow 0
      = .ret ({ test := { line := 9, ntest := -2147483647, npass := 2147483647,
                          nfails := 2, status := FAIL,
                          file := some "test.c", msg := some "-1", stmt := some "-1" },
                kthook := kthook_zero }, 8) ∧
    (-2147483647 : Int) ≠ near_overflow.test.ntest + 3 ∧
    ¬ IsInt (near_overflow.test.ntest + 3) ∧
    runBody [sample_pass.exec, sample_expect_fail.exec, sample_fatal.exec] Globals.initial 0
      = .abort := by
  decide

/-! ## Evaluation of the operands -/

/-- C11. How often the operands are evaluated, counted by the operands
themselves (expected operand first, statement second). At the failing
`TEST_INT_EQUAL(4, -1, NULL, NULL)` (commented out at test.c, line 9) the
statement is evaluated once but the expected operand twice, and likewise for
`EXPECT_INT_EQUAL`; at the passing
`TEST_INT_EQUAL(4, 4, NULL, NULL)` each is evaluated once. In general `ASSERT`
evaluates its statement once and `ASSERT_STRING` each operand once, on both
branches; `ASSERT_INT` and `EXPECT_TYPE` evaluate the statement once, and the
expected operand once when the comparison holds but twice when it fails, where
`EXPT` is passed to `printf` again. The claim of a single evaluation fails
there. -/
theorem operand_evaluations (cs : CallSite) (ty : CIntType) (c e a : Int) (s t : String)
    (tag : Option String) (data : Int) (g : Globals) :
    state_after (TEST_INT_EQUAL ⟨"test.c", 9, "-1"⟩ .int (.tight (.countingE 4)) (.countingS (-1))
        none 0) Globals.initial (0, 0) = .ret (2, 1) ∧
    state_after (EXPECT_INT_EQUAL ⟨"test.c", 9, "-1"⟩ .int (.tight (.countingE 4)) (.countingS (-1))
        none 0) Globals.initial (0, 0) = .ret (2, 1) ∧
    state_after (TEST_INT_EQUAL ⟨"test.c", 8, "4"⟩ .int (.tight (.countingE 4)) (.countingS 4)
        none 0) Globals.initial (0, 0) = .ret (1, 1) ∧
    state_after (ASSERT cs (.countingS c) tag data) g (0, 0) = .ret (0, 1) ∧
    state_after (ASSERT_STRING cs (.countingE (some s)) (.countingS (some t)) tag data) g (0, 0)
      = .ret (1, 1) ∧
    state_after (ASSERT_INT cs ty (.tight (.countingE e)) (.countingS a) tag data) g (0, 0)
      = .ret (if cEq ty e (wrapInt a) = true then 1 else 2, 1) ∧
    state_after (EXPECT_TYPE cs ty (.tight (.countingE e)) (.countingS a) tag data) g (0, 0)
      = .ret (if cEq ty e (wrapInt a) = true then 1 else 2, 1) := by
  refine ⟨by decide, by decide, by decide, ?_, ?_, ?_, ?_⟩
  · by_cases h : c = 0 <;>
      simp [state_after, ASSERT, Operand.countingS, Outcome.bind, PASS, FAIL, h]
  · by_cases h : strcmpChars s.data t.data = 0 <;>
      simp [state_after, ASSERT_STRING, Operand.countingS, Operand.countingE, Outcome.bind,
        strcmp, PASS, FAIL, h]
  · by_cases h : cEq ty e (wrapInt a) = true <;>
      simp [state_after, ASSERT_INT, Expected.eqACT, Expected.value, cBool, Operand.countingS,
        Operand.countingE, Outcome.bind,
        PASS, FAIL, h]
  · by_cases h : cEq ty e (wrapInt a) = true <;>
      simp [state_after, EXPECT_TYPE, Expected.eqACT, Expected.value, cBool, Operand.countingS,
        Operand.countingE, Outcome.bind,
        PASS, FAIL, h]

/-! ## What the assertion forms record -/

/-- The result of `ASSERT_INT` on side-effect-free operands. -/
theorem assert_int_lit {σ : Type} (cs : CallSite) (ty : CIntType) (e a : Int)
    (tag : Option String) (data : Int) (g : Globals) (u : σ) :
    ASSERT_INT cs ty (.tight (.lit e)) (.lit a) tag data g u
      = .ret (if cEq ty e (wrapInt a) = true then Ctl.next else Ctl.returned,
          record cs (if cEq ty e (wrapInt a) = true then PASS else FAIL)
            (announce_and_arm cs tag data g), u) := by
  by_cases h : cEq ty e (wrapInt a) = true <;>
    simp [ASSERT_INT, Expected.eqACT, Expected.value, cBool, Operand.lit, Outcome.bind, PASS,
      FAIL, h]

/-- The result of `EXPECT_TYPE` on side-effect-free operands. -/
theorem expect_type_lit {σ : Type} (cs : CallSite) (ty : CIntType) (e a : Int)
    (tag : Option String) (data : Int) (g : Globals) (u : σ) :
    EXPECT_TYPE cs ty (.tight (.lit e)) (.lit a) tag data g u
      = .ret (Ctl.next,
          record cs (if cEq ty e (wrapInt a) = true then PASS else FAIL)
            (announce_and_arm cs tag data g), u) := by
  by_cases h : cEq ty e (wrapInt a) = true <;>
    simp [EXPECT_TYPE, Expected.eqACT, Expected.value, cBool, Operand.lit, Outcome.bind, PASS,
      FAIL, h]

/-- The status field after `record`. -/
theorem record_status (cs : CallSite) (st : Int) (g : Globals) :
    (record cs st g).test.status = st := by
  by_cases h : st = PASS <;> simp [record, ktest_update_result, h]

/-- On operand types of at most 32 bits the comparison made by `ASSERT_INT`,
after the statement went through the `int` variable `ACT`, is equality of the
values. -/
theorem cEq_iff_of_narrow (ty : CIntType) (e a : Int) (hw : ty.bits ≤ 32)
    (he : ty.inRange e) (ha : ty.inRange a) :
    cEq ty e (wrapInt a) = true ↔ e = a := by
  cases ty <;>
    simp only [CIntType.bits, CIntType.inRange, CIntType.minVal, CIntType.maxVal] at hw he ha <;>
    simp only [cEq, CIntType.promoted, CIntType.conv, wrapInt, decide_eq_true_eq] <;>
    omega

/-- C13. String equality: for every pair of non-null strings `e` and `a`,
`TEST_STRING_EQUAL(e, a, NULL, NULL)` records PASS if and only if the two texts
are equal character for character, and FAIL (returning from the test)
otherwise. Only the text enters the comparison, so a copy made by `strdup`
compares like the original: `("Hello", "Hello")` and `("Hello",
strdup("Hello"))` record PASS, `("Helo", "Hello")` records FAIL. -/
theorem string_equality {σ : Type} (cs : CallSite) (e a : String) (g : Globals) (u : σ) :
    TEST_STRING_EQUAL cs (.lit (some e)) (.lit (some a)) none 0 g u
      = .ret (if e = a then Ctl.next else Ctl.returned,
          record cs (if e = a then PASS else FAIL) (announce_and_arm cs none 0 g), u) ∧
    status_after (TEST_STRING_EQUAL cs (.lit (some e)) (.lit (some a)) none 0) g u
      = .ret (if e = a then PASS else FAIL) ∧
    status_after (TEST_STRING_EQUAL cs (.lit (some e))
        (fun _ v => (strdup (some a)).bind fun p => .ret (p, v)) none 0) g u
      = .ret (if e = a then PASS else FAIL) ∧
    status_after (TEST_STRING_EQUAL ⟨"test.c", 28, "\"Hello\""⟩ (.lit (some "Hello"))
        (.lit (some "Hello")) none 0) Globals.initial () = .ret PASS ∧
    status_after (TEST_STRING_EQUAL ⟨"test.c", 30, "strdup(\"Hello\")"⟩ (.lit (some "Hello"))
        (fun _ v => (strdup (some "Hello")).bind fun p => .ret (p, v)) none 0)
        Globals.initial () = .ret PASS ∧
    status_after (TEST_STRING_EQUAL ⟨"test.c", 29, "\"Hello\""⟩ (.lit (some "Helo"))
        (.lit (some "Hello")) none 0) Globals.initial () = .ret FAIL := by
  have hz : strcmpChars e.data a.data = 0 ↔ e = a := by
    rw [strcmpChars_eq_zero_iff, String.ext_iff]
  refine ⟨?_, ?_, ?_, by decide, by decide, by decide⟩
  · by_cases h : e = a
    · subst h
      have h0 : strcmpChars e.data e.data = 0 := hz.2 rfl
      simp [TEST_STRING_EQUAL, ASSERT_STRING, Operand.lit, Outcome.bind, strcmp, PASS, FAIL,
        h0]
    · have h0 : ¬ strcmpChars e.data a.data = 0 := fun hh => h (hz.1 hh)
      simp [TEST_STRING_EQUAL, ASSERT_STRING, Operand.lit, Outcome.bind, strcmp, PASS, FAIL,
        h0, h]
  · by_cases h : e = a
    · subst h
      have h0 : strcmpChars e.data e.data = 0 := hz.2 rfl
      simp [status_after, TEST_STRING_EQUAL, ASSERT_STRING, Operand.lit, Outcome.bind, strcmp,
        record_status, PASS, FAIL, h0]
    · have h0 : ¬ strcmpChars e.data a.data = 0 := fun hh => h (hz.1 hh)
      simp [status_after, TEST_STRING_EQUAL, ASSERT_STRING, Operand.lit, Outcome.bind, strcmp,
        record_status, PASS, FAIL, h0, h]
  · by_cases h : e = a
    · subst h
      have h0 : strcmpChars e.data e.data = 0 := hz.2 rfl
      simp [status_after, TEST_STRING_EQUAL, ASSERT_STRING, Operand.lit, Outcome.bind, strcmp,
        strdup, record_status, PASS, FAIL, h0]
    · have h0 : ¬ strcmpChars e.data a.data = 0 := fun hh => h (hz.1 hh)
      simp [status_after, TEST_STRING_EQUAL, ASSERT_STRING, Operand.lit, Outcome.bind, strcmp,
        strdup, record_status, PASS, FAIL, h0, h]

/-- C17. Boolean assertion: for every value `c` of a side-effect-free
expression, `ASSERT(c, NULL, NULL)` records PASS and goes on if and only if `c`
is non-zero, and records FAIL and returns from the enclosing test if and only
if `c` is zero. Of the cases of test.c, `2 == 2`, `1 != 2` and `false == false`
record PASS; `1 != 1`, `1 == 2` and `false == true` record FAIL. -/
theorem boolean_assertion {σ : Type} (cs : CallSite) (c : Int) (g : Globals) (u : σ) :
    ASSERT cs (.lit c) none 0 g u
      = .ret (if c ≠ 0 then Ctl.next else Ctl.returned,
          record cs (if c ≠ 0 then PASS else FAIL) (announce_and_arm cs none 0 g), u) ∧
    status_after (ASSERT cs (.lit c) none 0) g u = .ret (if c ≠ 0 then PASS else FAIL) ∧
    PASS ≠ FAIL ∧
    status_after (ASSERT ⟨"test.c", 38, "2 == 2"⟩ (.lit (cBool (decide ((2 : Int) = 2))))
        none 0) Globals.initial () = .ret PASS ∧
    status_after (ASSERT ⟨"test.c", 39, "1 != 2"⟩ (.lit (cBool (decide ((1 : Int) ≠ 2))))
        none 0) Globals.initial () = .ret PASS ∧
    status_after (ASSERT ⟨"test.c", 42, "false == false"⟩
        (.lit (cBool (decide ((0 : Int) = 0)))) none 0) Globals.initial () = .ret PASS ∧
    status_after (ASSERT ⟨"test.c", 40, "1 != 1"⟩ (.lit (cBool (decide ((1 : Int) ≠ 1))))
        none 0) Globals.initial () = .ret FAIL ∧
    status_after (ASSERT ⟨"test.c", 41, "1 == 2"⟩ (.lit (cBool (decide ((1 : Int) = 2))))
        none 0) Globals.initial () = .ret FAIL ∧
    status_after (ASSERT ⟨"test.c", 43, "false == true"⟩
        (.lit (cBool (decide ((0 : Int) = 1)))) none 0) Globals.initial () = .ret FAIL := by
  refine ⟨?_, ?_, by decide, by decide, by decide, by decide, by decide, by decide, by decide⟩
  · by_cases h : c = 0 <;>
      simp [ASSERT, Operand.lit, Outcome.bind, PASS, FAIL, h]
  · by_cases h : c = 0 <;>
      simp [status_after, ASSERT, Operand.lit, Outcome.bind, record_status, PASS, FAIL, h]

/-! ## Reporting -/

/-- C14. Report idempotence: in every state `ktest_report` prints `ntest`,
`npass` and `nfails` and leaves the globals, `test` with its counters and
last-outcome fields and the hook slot, exactly as they were; a second call
right after prints the same three numbers. -/
theorem report_idempotent (g : Globals) :
    (ktest_report g).2 = g ∧
    (ktest_report g).2.test = g.test ∧
    (ktest_report g).2.kthook = g.kthook ∧
    (ktest_report g).1 = [g.test.ntest, g.test.npass, g.test.nfails] ∧
    (ktest_report (ktest_report g).2).1 = (ktest_report g).1 ∧
    (ktest_report (ktest_report g).2).2 = g :=
  ⟨rfl, rfl, rfl, rfl, rfl, rfl⟩

/-! ## Consuming the hook -/

/-- C15. A missing tag at consumption is fatal: in every state, armed or not,
`ktest_setup_hook` called with a null tag ends in the failed `assert`; it does
not return. This happens before the stored tag is looked at: the end is the
same where the comparison would have been undefined (null stored tag) and
where it would have reported a mismatch. -/
theorem setup_hook_null_tag (g : Globals) (caller file : Option String) (line : Int) :
    ktest_setup_hook caller file line none g = .assertFail ∧
    (ktest_setup_hook caller file line none g).returns = false ∧
    ktest_setup_hook caller file line none { test := g.test, kthook := kthook_zero }
      = .assertFail ∧
    ktest_setup_hook caller file line none
        (ktest_register_hook file line (some "A") 42 g) = .assertFail := by
  simp [ktest_setup_hook, Outcome.returns]

/-- C16, as amended. Consumption compares against the stored tag: in every slot
state whose stored tag is non-null (whatever the armed flag) and for every
non-null expected tag, `ktest_setup_hook` returns a value if and only if
`strcmp` finds the stored tag equal to the expected one, the value is then the
stored data and the globals are unchanged, and otherwise the call takes the
mismatch branch and ends in `abort()`. -/
theorem setup_hook_compares (tr : TestRunState) (b : Bool) (d : Nat) (st tag : String)
    (caller file : Option String) (line : Int) :
    ktest_setup_hook caller file line (some tag)
        { test := tr, kthook := { on_ := b, data := d, tag := some st } }
      = (if strcmp (some st) (some tag) = .ret 0
          then .ret (d, { test := tr, kthook := { on_ := b, data := d, tag := some st } })
          else .abort) ∧
    ((ktest_setup_hook caller file line (some tag)
        { test := tr, kthook := { on_ := b, data := d, tag := some st } }).returns = true
      ↔ strcmp (some st) (some tag) = .ret 0) := by
  by_cases h : strcmpChars st.data tag.data = 0 <;>
    simp [ktest_setup_hook, strcmp, Outcome.bind, Outcome.returns, h]

/-- Counterexample to C16 as stated: on the disarmed slot, at program start and
after arming with a null tag, `ktest_setup_hook("T")` hands the null stored tag
to `strcmp`. That is undefined behaviour, not the mismatch branch with its
report and `abort()`. -/
theorem setup_hook_disarmed :
    Globals.initial.kthook.tag = none ∧
    ktest_setup_hook (some "f") (some "x.c") 7 (some "T") Globals.initial = .ub ∧
    ktest_setup_hook (some "f") (some "x.c") 7 (some "T") Globals.initial ≠ .abort ∧
    ktest_setup_hook (some "f") (some "x.c") 7 (some "T")
        (ktest_register_hook (some "test.c") 3 none 42
          (ktest_register_hook (some "test.c") 2 (some "T") 42 Globals.initial))
      = .ub := by
  decide

/-- C19. Consumption does not disarm the hook: on a slot armed with tag `t` and
data `v`, `ktest_setup_hook(_, _, _, t)` returns `v` and a matching
`KTEST_SETUP_HOOK` assigns the cast of `v`, and both leave the globals, the
slot among them, exactly as they were; any number `n` of successive matching
consumptions return `v` each time and leave the slot armed. Recording a result
and reporting do not touch the slot either: it changes only in
`ktest_register_hook`. -/
theorem consume_keeps_hook {T : Type} (tr : TestRunState) (t : String) (v : Nat)
    (caller file : Option String) (line : Int) (func file2 : String) (line2 : Int)
    (type : Nat → T) (var : T) (n : Nat)
    (file3 : Option String) (line3 : Int) (msg stmt : Option String) (status : Int) :
    ktest_setup_hook caller file line (some t)
        { test := tr, kthook := { on_ := true, data := v, tag := some t } }
      = .ret (v, { test := tr, kthook := { on_ := true, data := v, tag := some t } }) ∧
    KTEST_SETUP_HOOK func file2 line2 (some t) type var
        { test := tr, kthook := { on_ := true, data := v, tag := some t } }
      = .ret (type v, { test := tr, kthook := { on_ := true, data := v, tag := some t } }) ∧
    consume_times caller file line (some t) n
        { test := tr, kthook := { on_ := true, data := v, tag := some t } }
      = .ret (List.replicate n v,
          { test := tr, kthook := { on_ := true, data := v, tag := some t } }) ∧
    (ktest_update_result file3 line3 msg stmt status
        { test := tr, kthook := { on_ := true, data := v, tag := some t } }).2.kthook
      = { on_ := true, data := v, tag := some t } ∧
    (ktest_report
        { test := tr, kthook := { on_ := true, data := v, tag := some t } }).2.kthook
      = { on_ := true, data := v, tag := some t } := by
  have h1 : ktest_setup_hook caller file line (some t)
        { test := tr, kthook := { on_ := true, data := v, tag := some t } }
      = .ret (v, { test := tr, kthook := { on_ := true, data := v, tag := some t } }) := by
    simp [setup_hook_of_armed, strcmp_self]
  refine ⟨h1, ?_, ?_, ?_, rfl⟩
  · simp [KTEST_SETUP_HOOK, setup_hook_cond_of_armed, setup_hook_of_armed, strcmp_self,
      Outcome.bind]
  · induction n with
    | zero => rfl
    | succ k ih => simp [consume_times, h1, ih, Outcome.bind, List.replicate_succ]
  · by_cases h : status = PASS <;> simp [ktest_update_result, h]

/-! ## Arming through the assertion forms -/

/-- The slot an assertion form arms is the one `ktest_register_hook` leaves for
its tag and its data converted to `uint64_t`. -/
theorem announce_and_arm_kthook (cs : CallSite) (tag : Option String) (data : Int)
    (g : Globals) :
    (announce_and_arm cs tag data g).kthook
      = (ktest_register_hook (some cs.file) cs.line tag (castU64 data) g).kthook := by
  cases tag <;> simp [announce_and_arm, register_hook_none, register_hook_some]

/-- An injection point reached right after an assertion form has armed. -/
theorem inject_after_arm {T : Type} (cs : CallSite) (tag : Option String) (data : Int)
    (g : Globals) (func file : String) (line : Int) (t : String) (type : Nat → T) (var : T) :
    KTEST_SETUP_HOOK func file line (some t) type var (announce_and_arm cs tag data g)
      = .ret (if strcmp tag (some t) = .ret 0 then type (castU64 data) else var,
          announce_and_arm cs tag data g) := by
  cases tag with
  | none =>
    simp only [announce_and_arm, register_hook_none]
    rw [KTEST_SETUP_HOOK, setup_hook_cond_of_unarmed]
    simp [Outcome.bind, strcmp]
  | some t0 =>
    simp only [announce_and_arm, register_hook_some]
    rw [KTEST_SETUP_HOOK, setup_hook_cond_of_armed, setup_hook_of_armed]
    by_cases h : strcmp (some t0) (some t) = .ret 0 <;> simp [Outcome.bind, h]

/-- The value a `spy` statement leaves in its variable when an assertion form
evaluates it. -/
theorem spy_after_arm {T α : Type} (cs : CallSite) (tag : Option String) (data : Int)
    (g : Globals) (func file : String) (line : Int) (t : String) (type : Nat → T)
    (val : T → α) (var : T) :
    Operand.spy func file line t type val (announce_and_arm cs tag data g) var
      = .ret (val (if strcmp tag (some t) = .ret 0 then type (castU64 data) else var),
          if strcmp tag (some t) = .ret 0 then type (castU64 data) else var) := by
  simp [Operand.spy, inject_after_arm, Outcome.bind]

/-- What each form leaves in the variable of a `spy` statement. -/
theorem forms_spy {T : Type} (cs : CallSite) (ty : CIntType) (e : Int) (es : String)
    (tag : Option String) (data : Int) (g : Globals)
    (func file : String) (line : Int) (t : String) (type : Nat → T)
    (val : T → Int) (txt : T → String) (var : T) :
    state_after (ASSERT cs (.spy func file line t type val) tag data) g var
      = .ret (if strcmp tag (some t) = .ret 0 then type (castU64 data) else var) ∧
    state_after (ASSERT_INT cs ty (.tight (.lit e)) (.spy func file line t type val) tag data) g var
      = .ret (if strcmp tag (some t) = .ret 0 then type (castU64 data) else var) ∧
    state_after (ASSERT_STRING cs (.lit (some es))
        (.spy func file line t type (fun x => some (txt x))) tag data) g var
      = .ret (if strcmp tag (some t) = .ret 0 then type (castU64 data) else var) ∧
    state_after (EXPECT_TYPE cs ty (.tight (.lit e)) (.spy func file line t type val) tag data) g var
      = .ret (if strcmp tag (some t) = .ret 0 then type (castU64 data) else var) := by
  refine ⟨?_, ?_, ?_, ?_⟩
  · simp only [state_after, ASSERT, spy_after_arm, Outcome.bind]
    generalize (if strcmp tag (some t) = .ret 0 then type (castU64 data) else var) = x
    by_cases h : val x = 0 <;> simp [h, PASS, FAIL]
  · simp only [state_after, ASSERT_INT, Expected.eqACT, Expected.value, spy_after_arm,
      Operand.lit, Outcome.bind]
    generalize (if strcmp tag (some t) = .ret 0 then type (castU64 data) else var) = x
    by_cases h : cEq ty e (wrapInt (val x)) = true <;> simp [h, cBool, PASS, FAIL]
  · simp only [state_after, ASSERT_STRING, spy_after_arm, Operand.lit, Outcome.bind]
    generalize (if strcmp tag (some t) = .ret 0 then type (castU64 data) else var) = x
    rw [strcmp_some_some]
    by_cases h : strcmpChars es.data (txt x).data = 0 <;> simp [h, PASS, FAIL]
  · simp only [state_after, EXPECT_TYPE, Expected.eqACT, Expected.value, spy_after_arm,
      Operand.lit, Outcome.bind]
    generalize (if strcmp tag (some t) = .ret 0 then type (castU64 data) else var) = x
    by_cases h : cEq ty e (wrapInt (val x)) = true <;> simp [h, cBool, PASS, FAIL]

/-- What each form leaves in the state of a `watch` statement: the slot the
statement found. -/
theorem forms_watch (cs : CallSite) (ty : CIntType) (c e : Int) (es s : String)
    (tag : Option String) (data : Int) (g : Globals) (u : Option kthook_t) :
    state_after (ASSERT cs (.watch c) tag data) g u
      = .ret (some (ktest_register_hook (some cs.file) cs.line tag (castU64 data) g).kthook) ∧
    state_after (ASSERT_INT cs ty (.tight (.lit e)) (.watch c) tag data) g u
      = .ret (some (ktest_register_hook (some cs.file) cs.line tag (castU64 data) g).kthook) ∧
    state_after (ASSERT_STRING cs (.lit (some es)) (.watch (some s)) tag data) g u
      = .ret (some (ktest_register_hook (some cs.file) cs.line tag (castU64 data) g).kthook) ∧
    state_after (EXPECT_TYPE cs ty (.tight (.lit e)) (.watch c) tag data) g u
      = .ret (some (ktest_register_hook (some cs.file) cs.line tag (castU64 data) g).kthook) := by
  refine ⟨?_, ?_, ?_, ?_⟩
  · simp only [state_after, ASSERT, Operand.watch, Outcome.bind, announce_and_arm_kthook]
    by_cases h : c = 0 <;> simp [h, PASS, FAIL]
  · simp only [state_after, ASSERT_INT, Expected.eqACT, Expected.value, Operand.watch,
      Operand.lit, Outcome.bind,
      announce_and_arm_kthook]
    by_cases h : cEq ty e (wrapInt c) = true <;> simp [h, cBool, PASS, FAIL]
  · simp only [state_after, ASSERT_STRING, Operand.watch, Operand.lit, Outcome.bind,
      announce_and_arm_kthook, strcmp_some_some]
    by_cases h : strcmpChars es.data s.data = 0 <;> simp [h, PASS, FAIL]
  · simp only [state_after, EXPECT_TYPE, Expected.eqACT, Expected.value, Operand.watch,
      Operand.lit, Outcome.bind,
      announce_and_arm_kthook]
    by_cases h : cEq ty e (wrapInt c) = true <;> simp [h, cBool, PASS, FAIL]

/-- For a value of an integer type of at most 64 bits, converting the stored
`(uint64_t) x` to an integer type gives the same as converting `x` itself. -/
theorem conv_castU64 (ty : CIntType) (x : Int)
    (hx : -9223372036854775808 ≤ x ∧ x ≤ 18446744073709551615) :
    ty.conv ((castU64 x : Nat) : Int) = ty.conv x := by
  have h0 : (0 : Int) ≤ x % 18446744073709551616 := Int.emod_nonneg _ (by decide)
  unfold castU64
  rw [Int.toNat_of_nonneg h0]
  cases ty <;> simp only [CIntType.conv, wrapInt]
  · have : x % 18446744073709551616 = 0 ↔ x = 0 := by omega
    simp only [this]
  all_goals omega

/-- C18, as amended. The hook is armed before the statement is evaluated and
replaces any earlier hook: from every prior state `g`, each of the four forms
called with `(HOOK_TAG, HOOK_DATA)` evaluates its statement with the slot that
`ktest_register_hook(_, _, HOOK_TAG, (uint64_t) HOOK_DATA)` leaves (the `watch`
statement reports the slot it found). Hence a statement containing
`KTEST_SETUP_HOOK(t, T, var)` (the `spy` statement) ends with `var` equal to
`(T) (uint64_t) HOOK_DATA`, the cast to `T` of the stored 64-bit value, when
`HOOK_TAG` is non-null and `strcmp` finds it equal to `t`, and with `var`
unchanged otherwise, in particular when `HOOK_TAG` is null, even if a previous
assertion has armed tag `t`. Where `T` is an integer type and `HOOK_DATA` a
value of an integer type of at most 64 bits, that is `(T) HOOK_DATA` itself,
in each of the four forms. -/
theorem hook_armed_before_statement {T : Type} (cs : CallSite) (ty : CIntType) (c e : Int)
    (es s : String) (tag : Option String) (data : Int) (g : Globals) (u : Option kthook_t)
    (func file : String) (line : Int) (t : String) (type : Nat → T)
    (val : T → Int) (txt : T → String) (var : T)
    (file0 : Option String) (line0 : Int) (data0 : Nat)
    (ty2 : CIntType) (val2 : Int → Int) (txt2 : Int → String) (var2 : Int) :
    (state_after (ASSERT cs (.watch c) tag data) g u
        = .ret (some (ktest_register_hook (some cs.file) cs.line tag (castU64 data) g).kthook) ∧
      state_after (ASSERT_INT cs ty (.tight (.lit e)) (.watch c) tag data) g u
        = .ret (some (ktest_register_hook (some cs.file) cs.line tag (castU64 data) g).kthook) ∧
      state_after (ASSERT_STRING cs (.lit (some es)) (.watch (some s)) tag data) g u
        = .ret (some (ktest_register_hook (some cs.file) cs.line tag (castU64 data) g).kthook) ∧
      state_after (EXPECT_TYPE cs ty (.tight (.lit e)) (.watch c) tag data) g u
        = .ret (some
            (ktest_register_hook (some cs.file) cs.line tag (castU64 data) g).kthook)) ∧
    (state_after (ASSERT cs (.spy func file line t type val) tag data) g var
        = .ret (if strcmp tag (some t) = .ret 0 then type (castU64 data) else var) ∧
      state_after (ASSERT_INT cs ty (.tight (.lit e)) (.spy func file line t type val) tag data)
          g var
        = .ret (if strcmp tag (some t) = .ret 0 then type (castU64 data) else var) ∧
      state_after (ASSERT_STRING cs (.lit (some es))
          (.spy func file line t type (fun x => some (txt x))) tag data) g var
        = .ret (if strcmp tag (some t) = .ret 0 then type (castU64 data) else var) ∧
      state_after (EXPECT_TYPE cs ty (.tight (.lit e)) (.spy func file line t type val) tag data)
          g var
        = .ret (if strcmp tag (some t) = .ret 0 then type (castU64 data) else var)) ∧
    state_after (ASSERT cs (.spy func file line t type val) (some t) data) g var
      = .ret (type (castU64 data)) ∧
    state_after (ASSERT cs (.spy func file line t type val) none data)
        (ktest_register_hook file0 line0 (some t) data0 g) var
      = .ret var ∧
    (-9223372036854775808 ≤ data ∧ data ≤ 18446744073709551615 →
      state_after (ASSERT cs (.spy func file line t (fun v => ty2.conv (v : Int)) val2)
          (some t) data) g var2
        = .ret (ty2.conv data) ∧
      state_after (ASSERT_INT cs ty (.tight (.lit e))
          (.spy func file line t (fun v => ty2.conv (v : Int)) val2) (some t) data) g var2
        = .ret (ty2.conv data) ∧
      state_after (ASSERT_STRING cs (.lit (some es))
          (.spy func file line t (fun v => ty2.conv (v : Int)) (fun x => some (txt2 x)))
          (some t) data) g var2
        = .ret (ty2.conv data) ∧
      state_after (EXPECT_TYPE cs ty (.tight (.lit e))
          (.spy func file line t (fun v => ty2.conv (v : Int)) val2) (some t) data) g var2
        = .ret (ty2.conv data)) := by
  have hs := forms_spy cs ty e es tag data g func file line t type val txt var
  refine ⟨forms_watch cs ty c e es s tag data g u, hs, ?_, ?_, ?_⟩
  · have h := (forms_spy cs ty e es (some t) data g func file line t type val txt var).1
    rw [h]
    simp [strcmp_self]
  · have h := (forms_spy cs ty e es none data (ktest_register_hook file0 line0 (some t) data0 g)
      func file line t type val txt var).1
    rw [h]
    simp [strcmp]
  · intro hr
    have h := forms_spy cs ty e es (some t) data g func file line t
      (fun v => ty2.conv (v : Int)) val2 txt2 var2
    simp only [strcmp_self, if_true, conv_castU64 ty2 data hr] at h
    exact h

/-- Witness of C18: `ASSERT(f(), "T", -1)` from a state armed with another tag.
The statement finds the slot armed with `"T"` and 18446744073709551615, and an
`int` variable behind `KTEST_SETUP_HOOK("T", int, var)`, 7 before, ends as -1. -/
theorem hook_armed_before_statement_witness :
    ((-9223372036854775808 : Int) ≤ -1 ∧ (-1 : Int) ≤ 18446744073709551615) ∧
    state_after (ASSERT ⟨"test.c", 8, "f()"⟩ (.watch 1) (some "T") (-1))
        (ktest_register_hook (some "test.c") 7 (some "U") 5 Globals.initial) none
      = .ret (some { on_ := true, data := 18446744073709551615, tag := some "T" }) ∧
    state_after (ASSERT ⟨"test.c", 8, "f()"⟩
        (.spy "f" "code.c" 12 "T" (fun v => CIntType.int.conv (v : Int)) id) (some "T") (-1))
        (ktest_register_hook (some "test.c") 7 (some "U") 5 Globals.initial) 7
      = .ret (CIntType.int.conv (-1)) ∧
    CIntType.int.conv (-1) = -1 :=
  ⟨by decide, by decide,
    ((hook_armed_before_statement ⟨"test.c", 8, "f()"⟩ .int 1 0 "" "" (some "T") (-1)
      (ktest_register_hook (some "test.c") 7 (some "U") 5 Globals.initial) none
      "f" "code.c" 12 "T" (fun v => CIntType.int.conv (v : Int)) id (fun _ => "") 7
      none 0 0 .int id (fun _ => "") 7).2.2.2.2 (by decide)).1,
    by decide⟩

/-- Counterexample to C18 as stated: `T = double`, `HOOK_DATA = -1`. The form
stores `(uint64_t) -1`, which is 18446744073709551615, and the variable behind
`KTEST_SETUP_HOOK("T", double, var)` ends as the `double` nearest to it,
18446744073709551616, not as `(double) -1`, which is -1. -/
theorem hook_cast_double :
    castU64 (-1) = 18446744073709551615 ∧
    castDouble 18446744073709551615 = 18446744073709551616 ∧
    state_after (ASSERT ⟨"test.c", 8, "f()"⟩ (.spy "f" "code.c" 12 "T" castDouble id)
        (some "T") (-1)) Globals.initial 7
      = .ret 18446744073709551616 ∧
    (18446744073709551616 : Int) ≠ -1 := by
  decide

/-! ## Width of the injected value -/

/-- A 32-bit `int` stored as `uint64_t` and read back as `int` is unchanged. -/
theorem castInt_castU64 (x : Int) (hx : IsInt x) : castInt (castU64 x) = x := by
  unfold IsInt INT_MIN INT_MAX at hx
  unfold castInt castU64 wrapInt
  have h0 : (0 : Int) ≤ x % 18446744073709551616 := Int.emod_nonneg _ (by decide)
  rw [Int.toNat_of_nonneg h0]
  omega

/-- C20. Injected 32-bit values survive the 64-bit slot: for every `int` `x`,
negative ones included, an assertion form called with a non-null tag `t` and
`HOOK_DATA = x` stores `(uint64_t) x`, which is `x mod 2^64`, and a statement
that consumes it with `KTEST_SETUP_HOOK(t, int, var)` ends with `var == x`,
whatever `var` held before; this holds in each of the four forms. -/
theorem int_survives_slot (cs : CallSite) (ty : CIntType) (e : Int) (es : String)
    (x : Int) (g : Globals) (func file : String) (line : Int) (t : String)
    (val : Int → Int) (txt : Int → String) (var : Int) (hx : IsInt x) :
    (announce_and_arm cs (some t) x g).kthook
      = { on_ := true, data := (x % 18446744073709551616).toNat, tag := some t } ∧
    castInt (castU64 x) = x ∧
    state_after (ASSERT cs (.spy func file line t castInt val) (some t) x) g var = .ret x ∧
    state_after (ASSERT_INT cs ty (.tight (.lit e)) (.spy func file line t castInt val) (some t) x) g var
      = .ret x ∧
    state_after (ASSERT_STRING cs (.lit (some es))
        (.spy func file line t castInt (fun v => some (txt v))) (some t) x) g var = .ret x ∧
    state_after (EXPECT_TYPE cs ty (.tight (.lit e)) (.spy func file line t castInt val) (some t) x) g var
      = .ret x := by
  have hs := forms_spy cs ty e es (some t) x g func file line t castInt val txt var
  have hc := castInt_castU64 x hx
  simp only [strcmp_self, if_true, hc] at hs
  refine ⟨?_, hc, hs.1, hs.2.1, hs.2.2.1, hs.2.2.2⟩
  simp [announce_and_arm, register_hook_some, castU64]

/-- Witness of C20: `x = -1`. The slot holds 18446744073709551615 and the
variable, 7 before, ends as -1. -/
theorem int_survives_slot_witness :
    IsInt (-1) ∧
    castU64 (-1) = 18446744073709551615 ∧
    state_after (ASSERT ⟨"test.c", 8, "f()"⟩ (.spy "f" "code.c" 12 "T" castInt id)
        (some "T") (-1)) Globals.initial 7 = .ret (-1) :=
  ⟨by decide, by decide,
    (int_survives_slot ⟨"test.c", 8, "f()"⟩ .int 0 "" (-1) Globals.initial "f" "code.c" 12 "T"
      id (fun _ => "") 7 (by decide)).2.2.1⟩

end KTest
